import Mathlib

/-!
A formal model of the core of a small pinball arcade simulation:
2D vector math, flipper actuation, bumper / ball / wall collision
response, and the per-tick game loop.  Rendering, fonts and window
handling are out of scope; keyboard input and the random horizontal
launch velocity are passed in as parameters.  Real numbers stand in
for the floating-point values of the original.  The original vector
normalization raises an error on zero-length input, so it is modelled
with Option, and every collision routine that may normalize a zero
vector returns Option as well (a none result models that runtime
error).  Colors are irrelevant to the simulation and are omitted.
-/

noncomputable section

namespace Pinball

open Classical

/- Screen and gameplay constants. -/

def WIDTH : ℝ := 800

def HEIGHT : ℝ := 1000

def GRAVITY : ℝ := 900

def BALL_RADIUS : ℝ := 12

def FLIPPER_LENGTH : ℝ := 110

def FLIPPER_WIDTH : ℝ := 18

/-- The fully activated flipper angle, radians(25). -/
def FLIPPER_ANGLE : ℝ := 25 * Real.pi / 180

/-- The resting flipper angle, radians(-22). -/
def FLIPPER_REST_ANGLE : ℝ := -22 * Real.pi / 180

/-- The angular speed bound of a flipper, radians(400) per second. -/
def FLIPPER_SPEED : ℝ := 400 * Real.pi / 180

def BUMPER_RADIUS : ℝ := 28

def BUMPER_FORCE : ℝ := 650

def LAUNCH_FORCE : ℝ := 720

/-- Two-dimensional vector with real coordinates. -/
structure Vec2 where
  x : ℝ
  y : ℝ

instance : Add Vec2 := ⟨fun v w => ⟨v.x + w.x, v.y + w.y⟩⟩

instance : Sub Vec2 := ⟨fun v w => ⟨v.x - w.x, v.y - w.y⟩⟩

instance : SMul ℝ Vec2 := ⟨fun a v => ⟨a * v.x, a * v.y⟩⟩

@[simp] lemma Vec2.add_x (v w : Vec2) : (v + w).x = v.x + w.x := rfl

@[simp] lemma Vec2.add_y (v w : Vec2) : (v + w).y = v.y + w.y := rfl

@[simp] lemma Vec2.sub_x (v w : Vec2) : (v - w).x = v.x - w.x := rfl

@[simp] lemma Vec2.sub_y (v w : Vec2) : (v - w).y = v.y - w.y := rfl

@[simp] lemma Vec2.smul_x (a : ℝ) (v : Vec2) : (a • v).x = a * v.x := rfl

@[simp] lemma Vec2.smul_y (a : ℝ) (v : Vec2) : (a • v).y = a * v.y := rfl

/-- Dot product of two vectors. -/
def Vec2.dot (v w : Vec2) : ℝ := v.x * w.x + v.y * w.y

/-- Euclidean length of a vector. -/
def Vec2.length (v : Vec2) : ℝ := Real.sqrt (v.x ^ 2 + v.y ^ 2)

/-- Unit vector in the direction of v.  The original raises ValueError
on a zero-length vector, modelled here by none. -/
def Vec2.normalize (v : Vec2) : Option Vec2 :=
  if v.length = 0 then none else some ⟨v.x / v.length, v.y / v.length⟩

/-- Reflection of v about a (non-zero, not necessarily unit) normal n,
as computed by the vector library: v - (2 (v.n) / (n.n)) n. -/
def Vec2.reflect (v n : Vec2) : Vec2 := v - (2 * v.dot n / n.dot n) • n

/-- The flipper paddle: pivot point, side flag, current angle and the
per-tick activation flag.  The color field of the original is
rendering-only and omitted. -/
structure Flipper where
  pivot : Vec2
  is_left : Bool
  angle : ℝ := FLIPPER_REST_ANGLE
  activated : Bool := false

/-- The approximate-equality test used by the actuation update:
math.isclose with abs_tol 1e-3 (and the default rel_tol 1e-9). -/
def isclose (a b : ℝ) : Prop :=
  |a - b| ≤ max (1e-9 * max |a| |b|) 1e-3

/-- The angle currently targeted by the actuation state machine. -/
def Flipper.target_angle (f : Flipper) : ℝ :=
  if f.activated then FLIPPER_ANGLE else FLIPPER_REST_ANGLE

/-- One actuation tick: move the angle toward the target at bounded
rate, clamped at the target, snapping when already within tolerance. -/
def Flipper.update (f : Flipper) (dt : ℝ) : Flipper :=
  let direction : ℝ := if f.target_angle > f.angle then 1 else -1
  if isclose f.angle f.target_angle then { f with angle := f.target_angle }
  else
    let a := f.angle + direction * FLIPPER_SPEED * dt
    if (direction > 0 ∧ a > f.target_angle) ∨ (direction < 0 ∧ a < f.target_angle) then
      { f with angle := f.target_angle }
    else
      { f with angle := a }

/-- Set the activation flag from this tick's input. -/
def Flipper.toggle (f : Flipper) (active : Bool) : Flipper :=
  { f with activated := active }

/-- Tip of the paddle: pivot plus the length-scaled direction of the
current angle, with the vertical component mirrored on the right side. -/
def Flipper.get_tip (f : Flipper) : Vec2 :=
  let d : Vec2 := ⟨Real.cos f.angle, Real.sin f.angle⟩
  let d2 : Vec2 := if f.is_left then d else ⟨d.x, -d.y⟩
  f.pivot + FLIPPER_LENGTH • d2

/-- The free ball: position and velocity. -/
structure Ball where
  position : Vec2
  velocity : Vec2

/-- Capsule collision of the paddle with the ball: project the ball
onto the pivot-to-tip segment, clamp, and test the distance to the
closest point; on contact reflect the velocity about the contact
normal, add an outward impulse, push the ball out along the normal,
and give the left flipper's extra upward kick. -/
def Flipper.collide (f : Flipper) (ball : Ball) : Option (Ball × Bool) :=
  let tip := f.get_tip
  let nearest := ball.position - f.pivot
  match (tip - f.pivot).normalize with
  | none => none
  | some direction =>
    let projection_length := max 0 (min FLIPPER_LENGTH (nearest.dot direction))
    let closest_point := f.pivot + projection_length • direction
    if (ball.position - closest_point).length ≤ BALL_RADIUS + FLIPPER_WIDTH / 2 then
      match (ball.position - closest_point).normalize with
      | none => none
      | some normal =>
        let v1 := ball.velocity.reflect normal + (120 : ℝ) • normal
        some (⟨ball.position + (4 : ℝ) • normal,
               ⟨v1.x, v1.y - (if f.is_left then 60 else 0)⟩⟩, true)
    else
      some (ball, false)

/-- A static circular bumper with its score value. -/
structure Bumper where
  position : Vec2
  value : ℤ := 100

/-- Circle collision of a bumper with the ball: on contact reflect the
velocity about the outward normal, add a damped impulse, and relocate
the ball to the contact radius plus a clearance margin. -/
def Bumper.collide (bp : Bumper) (ball : Ball) : Option (Ball × Bool) :=
  let displacement := ball.position - bp.position
  let distance := displacement.length
  if distance ≤ BUMPER_RADIUS + BALL_RADIUS then
    match displacement.normalize with
    | none => none
    | some normal =>
      let impulse := BUMPER_FORCE • normal
      some (⟨bp.position + (BUMPER_RADIUS + BALL_RADIUS + 2) • normal,
             ball.velocity.reflect normal + (0.4 : ℝ) • impulse⟩, true)
  else
    some (ball, false)

/-- Wall resolution against the playfield interior: clamp the position
at the left, right and top boundaries and send the corresponding
velocity component away from the wall, damped by 0.92.  The three
tests run in sequence on the mutated state, as in the original. -/
def Ball.handle_walls (b : Ball) : Ball :=
  let b1 := if b.position.x - BALL_RADIUS < 20 then
      (⟨⟨20 + BALL_RADIUS, b.position.y⟩, ⟨|b.velocity.x| * 0.92, b.velocity.y⟩⟩ : Ball)
    else b
  let b2 := if b1.position.x + BALL_RADIUS > WIDTH - 20 then
      (⟨⟨WIDTH - 20 - BALL_RADIUS, b1.position.y⟩, ⟨-|b1.velocity.x| * 0.92, b1.velocity.y⟩⟩ : Ball)
    else b1
  if b2.position.y - BALL_RADIUS < 20 then
    (⟨⟨b2.position.x, 20 + BALL_RADIUS⟩, ⟨b2.velocity.x, |b2.velocity.y| * 0.92⟩⟩ : Ball)
  else b2

/-- One integration tick: gravity acts on the vertical velocity first,
then the position advances with the updated velocity (semi-implicit
Euler), then walls are resolved. -/
def Ball.update (b : Ball) (dt : ℝ) : Ball :=
  let v : Vec2 := ⟨b.velocity.x, b.velocity.y + GRAVITY * dt⟩
  Ball.handle_walls ⟨b.position + dt • v, v⟩

/-- The whole table: two flippers, the bumpers, at most one ball, and
the running score. -/
structure Game where
  left_flipper : Flipper
  right_flipper : Flipper
  bumpers : List Bumper
  ball : Option Ball
  score : ℤ

/-- The fixed bumper layout: a 4 x 3 grid worth 150 each and a center
bumper at (WIDTH // 2, 560) worth 250.  Colors are omitted. -/
def create_bumpers : List Bumper :=
  [⟨⟨220, 260⟩, 150⟩, ⟨⟨320, 260⟩, 150⟩, ⟨⟨480, 260⟩, 150⟩, ⟨⟨580, 260⟩, 150⟩,
   ⟨⟨220, 360⟩, 150⟩, ⟨⟨320, 360⟩, 150⟩, ⟨⟨480, 360⟩, 150⟩, ⟨⟨580, 360⟩, 150⟩,
   ⟨⟨220, 460⟩, 150⟩, ⟨⟨320, 460⟩, 150⟩, ⟨⟨480, 460⟩, 150⟩, ⟨⟨580, 460⟩, 150⟩,
   ⟨⟨400, 560⟩, 250⟩]

/-- The initial table state. -/
def Game.init : Game where
  left_flipper := { pivot := ⟨270, 820⟩, is_left := true }
  right_flipper := { pivot := ⟨530, 820⟩, is_left := false }
  bumpers := create_bumpers
  ball := none
  score := 0

/-- Spawn a ball at the chute with a randomized horizontal velocity
component rand_x (drawn from [-120, 120] by the caller) and the fixed
upward launch speed. -/
def Game.launch_ball (g : Game) (rand_x : ℝ) : Game :=
  { g with ball := some ⟨⟨WIDTH - 70, HEIGHT - 80⟩, ⟨rand_x, -LAUNCH_FORCE⟩⟩ }

/-- The event-loop launch: the run loop only calls launch_ball when no
ball is active, so a launch request while a ball lives is a no-op. -/
def Game.launch_request (g : Game) (rand_x : ℝ) : Game :=
  if g.ball.isNone then g.launch_ball rand_x else g

/-- The per-tick flipper collision pass: each flipper is tested in
order and its boolean result is discarded; the score is threaded
through unchanged. -/
def flipperCollidePass : List Flipper → Ball → ℤ → Option (Ball × ℤ)
  | [], b, s => some (b, s)
  | f :: rest, b, s =>
    match f.collide b with
    | none => none
    | some (b1, _) => flipperCollidePass rest b1 s

/-- The per-tick bumper collision pass: each bumper is tested in order
and its value is added to the score on a true result. -/
def collideBumpers : List Bumper → Ball → ℤ → Option (Ball × ℤ)
  | [], b, s => some (b, s)
  | bp :: rest, b, s =>
    match bp.collide b with
    | none => none
    | some (b1, hit) => collideBumpers rest b1 (if hit then s + bp.value else s)

/-- One collision-resolution phase: flippers in order left, right,
then every bumper in order, accumulating score. -/
def Game.handle_collisions (g : Game) : Option Game :=
  match g.ball with
  | none => some g
  | some b =>
    match flipperCollidePass [g.left_flipper, g.right_flipper] b g.score with
    | none => none
    | some (b1, s1) =>
      match collideBumpers g.bumpers b1 s1 with
      | none => none
      | some (b2, s2) => some { g with ball := some b2, score := s2 }

/-- One simulation tick: set the activation flags from this tick's
input, actuate both flippers, then, if a ball is live, integrate it,
resolve collisions, and drain it when it has left the bottom. -/
def Game.update (g : Game) (left_key right_key : Bool) (dt : ℝ) : Option Game :=
  let lf := (g.left_flipper.toggle left_key).update dt
  let rf := (g.right_flipper.toggle right_key).update dt
  let g1 : Game := { g with left_flipper := lf, right_flipper := rf }
  match g1.ball with
  | none => some g1
  | some b =>
    let g2 : Game := { g1 with ball := some (b.update dt) }
    match g2.handle_collisions with
    | none => none
    | some g3 =>
      match g3.ball with
      | none => some g3
      | some b3 =>
        if b3.position.y - BALL_RADIUS > HEIGHT + 40 then some { g3 with ball := none }
        else some g3

/- Basic facts about the vector operations. -/

lemma Vec2.length_nonneg (v : Vec2) : 0 ≤ v.length :=
  Real.sqrt_nonneg _

lemma Vec2.sq_length (v : Vec2) : v.length ^ 2 = v.x ^ 2 + v.y ^ 2 :=
  Real.sq_sqrt (by positivity)

lemma Vec2.length_eq_zero_iff (v : Vec2) : v.length = 0 ↔ v = ⟨0, 0⟩ := by
  unfold Vec2.length
  rw [show (0 : ℝ) = Real.sqrt 0 by simp]
  constructor
  · intro h
    have h0 : 0 ≤ v.x ^ 2 + v.y ^ 2 := by positivity
    have h2 : v.x ^ 2 + v.y ^ 2 = 0 := by
      exact (Real.sqrt_eq_zero h0).mp (by simpa using h)
    obtain ⟨x, y⟩ := v
    have hx : x = 0 := by nlinarith [sq_nonneg x, sq_nonneg y]
    have hy : y = 0 := by nlinarith [sq_nonneg x, sq_nonneg y]
    simp [hx, hy]
  · intro h
    rw [h]
    norm_num

lemma Vec2.abs_x_le_length (v : Vec2) : |v.x| ≤ v.length := by
  rw [← Real.sqrt_sq_eq_abs]
  exact Real.sqrt_le_sqrt (by nlinarith [sq_nonneg v.y])

lemma Vec2.abs_y_le_length (v : Vec2) : |v.y| ≤ v.length := by
  rw [← Real.sqrt_sq_eq_abs]
  exact Real.sqrt_le_sqrt (by nlinarith [sq_nonneg v.x])

lemma Vec2.normalize_of_ne_zero {v : Vec2} (h : v.length ≠ 0) :
    v.normalize = some ⟨v.x / v.length, v.y / v.length⟩ := by
  unfold Vec2.normalize
  rw [if_neg h]

lemma Vec2.normalize_zero {v : Vec2} (h : v.length = 0) : v.normalize = none := by
  unfold Vec2.normalize
  rw [if_pos h]

lemma Vec2.normalize_unit {v n : Vec2} (h : v.normalize = some n) : n.dot n = 1 := by
  unfold Vec2.normalize at h
  by_cases hl : v.length = 0
  · rw [if_pos hl] at h
    exact absurd h (by simp)
  · rw [if_neg hl] at h
    have hn : n = ⟨v.x / v.length, v.y / v.length⟩ := (Option.some_inj.mp h).symm
    have hsq : v.length ^ 2 = v.x ^ 2 + v.y ^ 2 := v.sq_length
    rw [hn]
    unfold Vec2.dot
    field_simp
    nlinarith [hsq]

lemma Vec2.normalize_length {v n : Vec2} (h : v.normalize = some n) : n.length = 1 := by
  have hd : n.dot n = 1 := Vec2.normalize_unit h
  unfold Vec2.dot at hd
  unfold Vec2.length
  rw [show n.x ^ 2 + n.y ^ 2 = 1 by nlinarith [hd]]
  simp

lemma Vec2.length_smul (a : ℝ) (v : Vec2) : (a • v).length = |a| * v.length := by
  unfold Vec2.length
  show Real.sqrt ((a * v.x) ^ 2 + (a * v.y) ^ 2) = _
  rw [show (a * v.x) ^ 2 + (a * v.y) ^ 2 = a ^ 2 * (v.x ^ 2 + v.y ^ 2) by ring,
    Real.sqrt_mul (sq_nonneg a), Real.sqrt_sq_eq_abs]

lemma Vec2.reflect_unit (v n : Vec2) (h : n.dot n = 1) :
    v.reflect n = v - (2 * v.dot n) • n := by
  unfold Vec2.reflect
  rw [h, div_one]

lemma Vec2.length_vert (a : ℝ) : Vec2.length ⟨0, a⟩ = |a| := by
  unfold Vec2.length
  rw [show (0 : ℝ) ^ 2 + a ^ 2 = a ^ 2 by ring, Real.sqrt_sq_eq_abs]

lemma Vec2.length_horiz (a : ℝ) : Vec2.length ⟨a, 0⟩ = |a| := by
  unfold Vec2.length
  rw [show a ^ 2 + (0 : ℝ) ^ 2 = a ^ 2 by ring, Real.sqrt_sq_eq_abs]

lemma Vec2.normalize_vert_neg (d : ℝ) (hd : 0 < d) :
    Vec2.normalize ⟨0, -d⟩ = some ⟨0, -1⟩ := by
  have hl : Vec2.length ⟨0, -d⟩ = d := by
    rw [Vec2.length_vert, abs_neg, abs_of_pos hd]
  rw [Vec2.normalize_of_ne_zero (by rw [hl]; exact ne_of_gt hd), hl]
  congr 1
  have : -d / d = -1 := by field_simp
  simp [this]

lemma Vec2.normalize_vert_pos (d : ℝ) (hd : 0 < d) :
    Vec2.normalize ⟨0, d⟩ = some ⟨0, 1⟩ := by
  have hl : Vec2.length ⟨0, d⟩ = d := by
    rw [Vec2.length_vert, abs_of_pos hd]
  rw [Vec2.normalize_of_ne_zero (by rw [hl]; exact ne_of_gt hd), hl]
  congr 1
  have : d / d = 1 := by field_simp
  simp [this]

lemma Vec2.normalize_horiz_pos (d : ℝ) (hd : 0 < d) :
    Vec2.normalize ⟨d, 0⟩ = some ⟨1, 0⟩ := by
  have hl : Vec2.length ⟨d, 0⟩ = d := by
    rw [Vec2.length_horiz, abs_of_pos hd]
  rw [Vec2.normalize_of_ne_zero (by rw [hl]; exact ne_of_gt hd), hl]
  congr 1
  have : d / d = 1 := by field_simp
  simp [this]

/-- Claim C2: launching while a ball is already active is a silent
no-op: the whole game state is unchanged, so the stored ball afterwards
is the very same live ball, and the score and both flippers are
untouched. -/
theorem launch_while_active_noop (g : Game) (b : Ball) (r : ℝ) (h : g.ball = some b) :
    g.launch_request r = g ∧ (g.launch_request r).ball = some b ∧
    (g.launch_request r).score = g.score ∧
    (g.launch_request r).left_flipper = g.left_flipper ∧
    (g.launch_request r).right_flipper = g.right_flipper := by
  have hg : g.launch_request r = g := by
    unfold Game.launch_request
    simp [h]
  exact ⟨hg, by rw [hg, h], by rw [hg], by rw [hg], by rw [hg]⟩

/-- Witness for C2 at a concrete game state holding a live ball. -/
theorem launch_while_active_noop_witness :
    ({ Game.init with ball := some ⟨⟨400, 500⟩, ⟨0, 0⟩⟩ } : Game).launch_request 7 =
      { Game.init with ball := some ⟨⟨400, 500⟩, ⟨0, 0⟩⟩ } :=
  (launch_while_active_noop _ ⟨⟨400, 500⟩, ⟨0, 0⟩⟩ 7 rfl).1

/-- Claim C9: immediately after wall resolution the ball's position
lies within the playfield interior with respect to the left, right and
top walls. -/
theorem ball_in_bounds_after_wall_resolution (b : Ball) :
    20 + BALL_RADIUS ≤ b.handle_walls.position.x ∧
    b.handle_walls.position.x ≤ WIDTH - 20 - BALL_RADIUS ∧
    20 + BALL_RADIUS ≤ b.handle_walls.position.y := by
  unfold Ball.handle_walls
  simp only [WIDTH, BALL_RADIUS] at *
  split_ifs with h1 h2 h3 h4 h5 h6 <;>
    refine ⟨?_, ?_, ?_⟩ <;> simp_all <;> linarith

/- Wall resolution facts. -/

lemma Ball.handle_walls_id (b : Ball)
    (h1 : 20 ≤ b.position.x - BALL_RADIUS)
    (h2 : b.position.x + BALL_RADIUS ≤ WIDTH - 20)
    (h3 : 20 ≤ b.position.y - BALL_RADIUS) :
    b.handle_walls = b := by
  simp only [Ball.handle_walls]
  rw [if_neg (show ¬(b.position.x - BALL_RADIUS < 20) by linarith)]
  rw [if_neg (show ¬(b.position.x + BALL_RADIUS > WIDTH - 20) by
    simp only [gt_iff_lt, not_lt]; linarith)]
  rw [if_neg (show ¬(b.position.y - BALL_RADIUS < 20) by linarith)]

lemma Ball.update_no_wall (p v : Vec2) (dt : ℝ)
    (h1 : 20 ≤ p.x + v.x * dt - BALL_RADIUS)
    (h2 : p.x + v.x * dt + BALL_RADIUS ≤ WIDTH - 20)
    (h3 : 20 ≤ p.y + (v.y + GRAVITY * dt) * dt - BALL_RADIUS) :
    (Ball.mk p v).update dt =
      Ball.mk ⟨p.x + v.x * dt, p.y + (v.y + GRAVITY * dt) * dt⟩ ⟨v.x, v.y + GRAVITY * dt⟩ := by
  simp only [Ball.update]
  have hp : p + dt • (⟨v.x, v.y + GRAVITY * dt⟩ : Vec2) =
      (⟨p.x + v.x * dt, p.y + (v.y + GRAVITY * dt) * dt⟩ : Vec2) := by
    show (⟨p.x + dt * v.x, p.y + dt * (v.y + GRAVITY * dt)⟩ : Vec2) = _
    simp only [Vec2.mk.injEq]
    constructor <;> ring
  rw [hp]
  exact Ball.handle_walls_id _ h1 h2 h3

/-- Claim C8: Ball.update is semi-implicit Euler: gravity updates the
vertical velocity first, and the position then advances with the
updated velocity; hence a ball at rest gains velocity g dt and
vertical position g dt squared in one tick, if no wall is crossed. -/
theorem ball_update_semi_implicit (p v : Vec2) (dt : ℝ)
    (h1 : 20 ≤ p.x + v.x * dt - BALL_RADIUS)
    (h2 : p.x + v.x * dt + BALL_RADIUS ≤ WIDTH - 20)
    (h3 : 20 ≤ p.y + (v.y + GRAVITY * dt) * dt - BALL_RADIUS) :
    (Ball.mk p v).update dt =
      Ball.mk ⟨p.x + v.x * dt, p.y + (v.y + GRAVITY * dt) * dt⟩ ⟨v.x, v.y + GRAVITY * dt⟩ ∧
    (v = ⟨0, 0⟩ →
      ((Ball.mk p v).update dt).velocity.y = GRAVITY * dt ∧
      ((Ball.mk p v).update dt).position.y = p.y + GRAVITY * dt ^ 2) := by
  have h := Ball.update_no_wall p v dt h1 h2 h3
  refine ⟨h, fun hv => ?_⟩
  subst hv
  rw [h]
  constructor
  · show (0 : ℝ) + GRAVITY * dt = GRAVITY * dt
    ring
  · show p.y + ((0 : ℝ) + GRAVITY * dt) * dt = p.y + GRAVITY * dt ^ 2
    ring

/-- Witness for C8: from rest at (400, 500) with dt = 1, the tick
gains vertical velocity g and vertical position g. -/
theorem ball_update_semi_implicit_witness :
    ((Ball.mk ⟨400, 500⟩ ⟨0, 0⟩).update 1).velocity.y = GRAVITY * 1 ∧
    ((Ball.mk ⟨400, 500⟩ ⟨0, 0⟩).update 1).position.y = 500 + GRAVITY * 1 ^ 2 :=
  (ball_update_semi_implicit ⟨400, 500⟩ ⟨0, 0⟩ 1
    (by norm_num [BALL_RADIUS]) (by norm_num [BALL_RADIUS, WIDTH])
    (by norm_num [BALL_RADIUS, GRAVITY])).2 rfl

/-- Counterexample to claim C7: a ball penetrating the left wall with
horizontal speed 100 leaves with speed exactly 0.92 * 100, so the
restitution bound is attained with equality at a nonzero velocity,
refuting equality only at zero velocity. -/
theorem wall_restitution_bound_attained_at_nonzero :
    |((Ball.mk ⟨0, 500⟩ ⟨-100, 0⟩).handle_walls).velocity.x| = 0.92 * |(-100 : ℝ)| ∧
    (-100 : ℝ) ≠ 0 := by
  constructor
  · simp only [Ball.handle_walls]
    rw [if_pos (by norm_num [BALL_RADIUS] : ((⟨0, 500⟩ : Vec2) : Vec2).x - BALL_RADIUS < 20)]
    rw [if_neg (show ¬((20 : ℝ) + BALL_RADIUS + BALL_RADIUS > WIDTH - 20) by
      simp only [WIDTH, BALL_RADIUS]
      norm_num)]
    rw [if_neg (show ¬((500 : ℝ) - BALL_RADIUS < 20) by
      simp only [BALL_RADIUS]
      norm_num)]
    norm_num
  · norm_num

lemma handle_walls_left (b : Ball) (h : b.position.x - BALL_RADIUS < 20) :
    b.handle_walls.position.x = 20 + BALL_RADIUS ∧
    b.handle_walls.velocity.x = |b.velocity.x| * 0.92 := by
  simp only [Ball.handle_walls]
  rw [if_pos h]
  rw [if_neg (show ¬((⟨⟨20 + BALL_RADIUS, b.position.y⟩, ⟨|b.velocity.x| * 0.92, b.velocity.y⟩⟩ : Ball).position.x +
      BALL_RADIUS > WIDTH - 20) by
    show ¬(20 + BALL_RADIUS + BALL_RADIUS > WIDTH - 20)
    simp only [WIDTH, BALL_RADIUS]
    norm_num)]
  by_cases h3 : (⟨⟨20 + BALL_RADIUS, b.position.y⟩, ⟨|b.velocity.x| * 0.92, b.velocity.y⟩⟩ : Ball).position.y -
      BALL_RADIUS < 20
  · rw [if_pos h3]
    exact ⟨rfl, rfl⟩
  · rw [if_neg h3]
    exact ⟨rfl, rfl⟩

lemma handle_walls_right (b : Ball) (h : b.position.x + BALL_RADIUS > WIDTH - 20) :
    b.handle_walls.position.x = WIDTH - 20 - BALL_RADIUS ∧
    b.handle_walls.velocity.x = -|b.velocity.x| * 0.92 := by
  have h1 : ¬(b.position.x - BALL_RADIUS < 20) := by
    simp only [WIDTH, BALL_RADIUS] at h ⊢
    linarith
  simp only [Ball.handle_walls]
  rw [if_neg h1, if_pos h]
  by_cases h3 : (⟨⟨WIDTH - 20 - BALL_RADIUS, b.position.y⟩, ⟨-|b.velocity.x| * 0.92, b.velocity.y⟩⟩ : Ball).position.y -
      BALL_RADIUS < 20
  · rw [if_pos h3]
    exact ⟨rfl, rfl⟩
  · rw [if_neg h3]
    exact ⟨rfl, rfl⟩

lemma handle_walls_top (b : Ball) (h : b.position.y - BALL_RADIUS < 20) :
    b.handle_walls.position.y = 20 + BALL_RADIUS ∧
    b.handle_walls.velocity.y = |b.velocity.y| * 0.92 := by
  simp only [Ball.handle_walls]
  by_cases h1 : b.position.x - BALL_RADIUS < 20
  · rw [if_pos h1]
    by_cases h2 : (⟨⟨20 + BALL_RADIUS, b.position.y⟩, ⟨|b.velocity.x| * 0.92, b.velocity.y⟩⟩ : Ball).position.x +
        BALL_RADIUS > WIDTH - 20
    · rw [if_pos h2, if_pos h]
      exact ⟨rfl, rfl⟩
    · rw [if_neg h2, if_pos h]
      exact ⟨rfl, rfl⟩
  · rw [if_neg h1]
    by_cases h2 : b.position.x + BALL_RADIUS > WIDTH - 20
    · rw [if_pos h2, if_pos h]
      exact ⟨rfl, rfl⟩
    · rw [if_neg h2, if_pos h]
      exact ⟨rfl, rfl⟩

/-- Claim C7 (amended): penetrating the left, right or top boundary
clamps the position to the boundary plus radius and sends the
corresponding velocity component away from the wall with magnitude
exactly 0.92 times the incoming magnitude; hence the post-bounce speed
along that axis is at most 0.92 times the pre-bounce speed (always
attained), and strictly less than the pre-bounce speed unless the
component was zero. -/
theorem wall_bounce_clamp_and_damping (b : Ball) :
    (b.position.x - BALL_RADIUS < 20 →
      b.handle_walls.position.x = 20 + BALL_RADIUS ∧
      b.handle_walls.velocity.x = |b.velocity.x| * 0.92 ∧
      |b.handle_walls.velocity.x| = 0.92 * |b.velocity.x| ∧
      (b.velocity.x ≠ 0 → |b.handle_walls.velocity.x| < |b.velocity.x|)) ∧
    (b.position.x + BALL_RADIUS > WIDTH - 20 →
      b.handle_walls.position.x = WIDTH - 20 - BALL_RADIUS ∧
      b.handle_walls.velocity.x = -|b.velocity.x| * 0.92 ∧
      |b.handle_walls.velocity.x| = 0.92 * |b.velocity.x| ∧
      (b.velocity.x ≠ 0 → |b.handle_walls.velocity.x| < |b.velocity.x|)) ∧
    (b.position.y - BALL_RADIUS < 20 →
      b.handle_walls.position.y = 20 + BALL_RADIUS ∧
      b.handle_walls.velocity.y = |b.velocity.y| * 0.92 ∧
      |b.handle_walls.velocity.y| = 0.92 * |b.velocity.y| ∧
      (b.velocity.y ≠ 0 → |b.handle_walls.velocity.y| < |b.velocity.y|)) := by
  refine ⟨fun h => ?_, fun h => ?_, fun h => ?_⟩
  · obtain ⟨hp, hv⟩ := handle_walls_left b h
    have habs : |b.handle_walls.velocity.x| = 0.92 * |b.velocity.x| := by
      rw [hv, abs_mul, abs_abs, abs_of_pos (show (0 : ℝ) < 0.92 by norm_num)]
      ring
    refine ⟨hp, hv, habs, fun hne => ?_⟩
    have hpos : 0 < |b.velocity.x| := abs_pos.mpr hne
    rw [habs]
    linarith
  · obtain ⟨hp, hv⟩ := handle_walls_right b h
    have habs : |b.handle_walls.velocity.x| = 0.92 * |b.velocity.x| := by
      rw [hv, neg_mul, abs_neg, abs_mul, abs_abs,
        abs_of_pos (show (0 : ℝ) < 0.92 by norm_num)]
      ring
    refine ⟨hp, hv, habs, fun hne => ?_⟩
    have hpos : 0 < |b.velocity.x| := abs_pos.mpr hne
    rw [habs]
    linarith
  · obtain ⟨hp, hv⟩ := handle_walls_top b h
    have habs : |b.handle_walls.velocity.y| = 0.92 * |b.velocity.y| := by
      rw [hv, abs_mul, abs_abs, abs_of_pos (show (0 : ℝ) < 0.92 by norm_num)]
      ring
    refine ⟨hp, hv, habs, fun hne => ?_⟩
    have hpos : 0 < |b.velocity.y| := abs_pos.mpr hne
    rw [habs]
    linarith

/-- Witness for C7 (amended), at balls penetrating each of the three
walls with nonzero incoming velocity. -/
theorem wall_bounce_clamp_and_damping_witness :
    ((Ball.mk ⟨0, 500⟩ ⟨-5, 3⟩).handle_walls.position.x = 20 + BALL_RADIUS ∧
      |(Ball.mk ⟨0, 500⟩ ⟨-5, 3⟩).handle_walls.velocity.x| < |(-5 : ℝ)|) ∧
    ((Ball.mk ⟨799, 500⟩ ⟨4, 3⟩).handle_walls.position.x = WIDTH - 20 - BALL_RADIUS ∧
      |(Ball.mk ⟨799, 500⟩ ⟨4, 3⟩).handle_walls.velocity.x| < |(4 : ℝ)|) ∧
    ((Ball.mk ⟨400, 0⟩ ⟨3, -7⟩).handle_walls.position.y = 20 + BALL_RADIUS ∧
      |(Ball.mk ⟨400, 0⟩ ⟨3, -7⟩).handle_walls.velocity.y| < |(-7 : ℝ)|) := by
  have hL := (wall_bounce_clamp_and_damping (Ball.mk ⟨0, 500⟩ ⟨-5, 3⟩)).1
    (by norm_num [BALL_RADIUS])
  have hR := (wall_bounce_clamp_and_damping (Ball.mk ⟨799, 500⟩ ⟨4, 3⟩)).2.1
    (by norm_num [BALL_RADIUS, WIDTH])
  have hT := (wall_bounce_clamp_and_damping (Ball.mk ⟨400, 0⟩ ⟨3, -7⟩)).2.2
    (by norm_num [BALL_RADIUS])
  exact ⟨⟨hL.1, hL.2.2.2 (by norm_num)⟩, ⟨hR.1, hR.2.2.2 (by norm_num)⟩,
    ⟨hT.1, hT.2.2.2 (by norm_num)⟩⟩

/- Flipper actuation facts. -/

lemma isclose_self (a : ℝ) : isclose a a := by
  unfold isclose
  rw [sub_self, abs_zero]
  exact le_max_of_le_right (by norm_num)

lemma rest_le_active : FLIPPER_REST_ANGLE ≤ FLIPPER_ANGLE := by
  unfold FLIPPER_REST_ANGLE FLIPPER_ANGLE
  nlinarith [Real.pi_pos]

lemma flipper_target_bounds (f : Flipper) :
    FLIPPER_REST_ANGLE ≤ f.target_angle ∧ f.target_angle ≤ FLIPPER_ANGLE := by
  unfold Flipper.target_angle
  split
  · exact ⟨rest_le_active, le_rfl⟩
  · exact ⟨le_rfl, rest_le_active⟩

lemma flipper_speed_nonneg : 0 ≤ FLIPPER_SPEED := by
  unfold FLIPPER_SPEED
  positivity

/-- Case description of one actuation step: the new angle is either the
target itself (snap or clamp) or a full rate-limited step that did not
cross the target. -/
lemma flipper_update_cases (f : Flipper) (dt : ℝ) :
    (f.update dt).angle = f.target_angle ∨
    (¬isclose f.angle f.target_angle ∧
      ((f.target_angle > f.angle ∧
          (f.update dt).angle = f.angle + FLIPPER_SPEED * dt ∧
          (f.update dt).angle ≤ f.target_angle) ∨
        (¬(f.target_angle > f.angle) ∧
          (f.update dt).angle = f.angle - FLIPPER_SPEED * dt ∧
          f.target_angle ≤ (f.update dt).angle))) := by
  simp only [Flipper.update]
  by_cases hc : isclose f.angle f.target_angle
  · rw [if_pos hc]
    exact Or.inl rfl
  · rw [if_neg hc]
    by_cases hd : f.target_angle > f.angle
    · rw [if_pos hd]
      by_cases hcl : f.angle + 1 * FLIPPER_SPEED * dt > f.target_angle
      · rw [if_pos (Or.inl ⟨one_pos, hcl⟩)]
        exact Or.inl rfl
      · rw [if_neg (by
          push_neg
          constructor
          · intro _
            linarith [not_lt.mp hcl]
          · intro h1
            norm_num at h1)]
        refine Or.inr ⟨hc, Or.inl ⟨hd, ?_, ?_⟩⟩
        · show f.angle + 1 * FLIPPER_SPEED * dt = f.angle + FLIPPER_SPEED * dt
          ring
        · show f.angle + 1 * FLIPPER_SPEED * dt ≤ f.target_angle
          linarith [not_lt.mp hcl]
    · rw [if_neg hd]
      by_cases hcl : f.angle + -1 * FLIPPER_SPEED * dt < f.target_angle
      · rw [if_pos (Or.inr ⟨by norm_num, hcl⟩)]
        exact Or.inl rfl
      · rw [if_neg (by
          push_neg
          constructor
          · intro h1
            norm_num at h1
          · intro _
            linarith [not_lt.mp hcl])]
        refine Or.inr ⟨hc, Or.inr ⟨hd, ?_, ?_⟩⟩
        · show f.angle + -1 * FLIPPER_SPEED * dt = f.angle - FLIPPER_SPEED * dt
          ring
        · show f.target_angle ≤ f.angle + -1 * FLIPPER_SPEED * dt
          linarith [not_lt.mp hcl]

/-- Claim C1: over one actuation tick with nonnegative dt, a flipper
angle that starts between the rest angle and the fully activated angle
stays in that closed interval for any activation flag; the clamped
step never overshoots the current target, and an angle within
tolerance of the target snaps exactly to it. -/
theorem flipper_angle_stays_in_range (f : Flipper) (dt : ℝ) (hdt : 0 ≤ dt)
    (h1 : FLIPPER_REST_ANGLE ≤ f.angle) (h2 : f.angle ≤ FLIPPER_ANGLE) :
    (FLIPPER_REST_ANGLE ≤ (f.update dt).angle ∧ (f.update dt).angle ≤ FLIPPER_ANGLE) ∧
    (isclose f.angle f.target_angle → (f.update dt).angle = f.target_angle) ∧
    (f.angle ≤ f.target_angle → (f.update dt).angle ≤ f.target_angle) ∧
    (f.target_angle ≤ f.angle → f.target_angle ≤ (f.update dt).angle) := by
  obtain ⟨ht1, ht2⟩ := flipper_target_bounds f
  have hs : 0 ≤ FLIPPER_SPEED * dt := mul_nonneg flipper_speed_nonneg hdt
  rcases flipper_update_cases f dt with heq | ⟨hc, hcase⟩
  · exact ⟨⟨by linarith [heq.ge, heq.le], by linarith [heq.le]⟩,
      fun _ => heq, fun _ => heq.le, fun _ => heq.ge⟩
  · rcases hcase with ⟨hd, heq, hle⟩ | ⟨hd, heq, hge⟩
    · refine ⟨⟨by linarith [heq.ge], by linarith⟩, fun hcl => absurd hcl hc, fun _ => hle,
        fun hta => ?_⟩
      have : f.angle = f.target_angle := le_antisymm (le_of_lt hd) hta
      exact absurd (this ▸ isclose_self f.angle) hc
    · push_neg at hd
      refine ⟨⟨by linarith, by linarith [heq.le]⟩, fun hcl => absurd hcl hc, fun hta => ?_,
        fun _ => hge⟩
      have : f.angle = f.target_angle := le_antisymm hta hd
      exact absurd (this ▸ isclose_self f.angle) hc

/-- Witness for C1: an activated flipper at angle 0 (inside the range)
with dt = 0 stays inside the range. -/
theorem flipper_angle_stays_in_range_witness :
    FLIPPER_REST_ANGLE ≤ ((⟨⟨270, 820⟩, true, 0, true⟩ : Flipper).update 0).angle ∧
    ((⟨⟨270, 820⟩, true, 0, true⟩ : Flipper).update 0).angle ≤ FLIPPER_ANGLE :=
  (flipper_angle_stays_in_range ⟨⟨270, 820⟩, true, 0, true⟩ 0 le_rfl
    (show FLIPPER_REST_ANGLE ≤ (0 : ℝ) by
      unfold FLIPPER_REST_ANGLE
      nlinarith [Real.pi_pos])
    (show (0 : ℝ) ≤ FLIPPER_ANGLE by
      unfold FLIPPER_ANGLE
      positivity)).1

/- Componentwise characterizations. -/

lemma Vec2.eq_coords_iff (v w : Vec2) : v = w ↔ v.x = w.x ∧ v.y = w.y := by
  constructor
  · intro h
    rw [h]
    exact ⟨rfl, rfl⟩
  · intro h
    obtain ⟨x, y⟩ := v
    obtain ⟨x2, y2⟩ := w
    obtain ⟨hx, hy⟩ := h
    simp_all

lemma Ball.eq_fields_iff (a b : Ball) : a = b ↔ a.position = b.position ∧ a.velocity = b.velocity := by
  constructor
  · intro h
    rw [h]
    exact ⟨rfl, rfl⟩
  · intro h
    obtain ⟨p, v⟩ := a
    obtain ⟨p2, v2⟩ := b
    obtain ⟨hp, hv⟩ := h
    simp_all

lemma Vec2.sub_eq_zero_iff (v w : Vec2) : v - w = ⟨0, 0⟩ ↔ v = w := by
  rw [Vec2.eq_coords_iff, Vec2.eq_coords_iff]
  constructor
  · intro ⟨hx, hy⟩
    simp only [Vec2.sub_x, Vec2.sub_y] at hx hy
    constructor <;> [skip; skip] <;> [linarith; linarith]
  · intro ⟨hx, hy⟩
    constructor <;> simp [hx, hy]

lemma Vec2.smul_smul (a c : ℝ) (v : Vec2) : a • (c • v) = (a * c) • v := by
  rw [Vec2.eq_coords_iff]
  constructor <;> simp <;> ring

lemma Vec2.add_sub_cancel_left (w v : Vec2) : (w + v) - w = v := by
  rw [Vec2.eq_coords_iff]
  constructor <;> simp

/- Bumper collision facts. -/

lemma Bumper.collide_far (bp : Bumper) (b : Ball)
    (h : BUMPER_RADIUS + BALL_RADIUS < (b.position - bp.position).length) :
    bp.collide b = some (b, false) := by
  simp only [Bumper.collide]
  rw [if_neg (not_le.mpr h)]

lemma Bumper.bumper_contact_result (bp : Bumper) (b : Ball)
    (hle : (b.position - bp.position).length ≤ BUMPER_RADIUS + BALL_RADIUS)
    (hne : b.position ≠ bp.position) :
    ∃ n b1, (b.position - bp.position).normalize = some n ∧
      bp.collide b = some (b1, true) ∧
      b1.velocity = b.velocity.reflect n + (0.4 * BUMPER_FORCE) • n ∧
      b1.position = bp.position + (BUMPER_RADIUS + BALL_RADIUS + 2) • n ∧
      (b1.position - bp.position).length = BUMPER_RADIUS + BALL_RADIUS + 2 := by
  have hlen0 : (b.position - bp.position).length ≠ 0 := by
    rw [Ne, Vec2.length_eq_zero_iff, Vec2.sub_eq_zero_iff]
    exact hne
  have hn := Vec2.normalize_of_ne_zero hlen0
  have hunit : Vec2.length ⟨(b.position - bp.position).x / (b.position - bp.position).length,
      (b.position - bp.position).y / (b.position - bp.position).length⟩ = 1 :=
    Vec2.normalize_length hn
  refine ⟨⟨(b.position - bp.position).x / (b.position - bp.position).length,
      (b.position - bp.position).y / (b.position - bp.position).length⟩,
    ⟨bp.position + (BUMPER_RADIUS + BALL_RADIUS + 2) •
        ⟨(b.position - bp.position).x / (b.position - bp.position).length,
         (b.position - bp.position).y / (b.position - bp.position).length⟩,
      b.velocity.reflect
          ⟨(b.position - bp.position).x / (b.position - bp.position).length,
           (b.position - bp.position).y / (b.position - bp.position).length⟩ +
        (0.4 : ℝ) • (BUMPER_FORCE •
          ⟨(b.position - bp.position).x / (b.position - bp.position).length,
           (b.position - bp.position).y / (b.position - bp.position).length⟩)⟩,
    hn, ?_, ?_, rfl, ?_⟩
  · simp only [Bumper.collide]
    rw [if_pos hle, hn]
  · show Vec2.reflect _ _ + (0.4 : ℝ) • (BUMPER_FORCE • _) = _
    rw [Vec2.smul_smul]
  · rw [Vec2.add_sub_cancel_left, Vec2.length_smul, hunit,
      abs_of_nonneg (show (0 : ℝ) ≤ BUMPER_RADIUS + BALL_RADIUS + 2 by
        unfold BUMPER_RADIUS BALL_RADIUS
        norm_num)]
    ring

/-- Claim C5: the bumper reports contact exactly when the
center-to-center distance is at most the radius sum; on contact it
reflects the velocity about the outward normal, adds the damped
normal impulse, and relocates the ball to exactly radius sum plus
clearance from the center; a ball straight above the center moving
straight down leaves moving upward. -/
theorem bumper_collide_spec :
    (∀ (bp : Bumper) (b : Ball),
        BUMPER_RADIUS + BALL_RADIUS < (b.position - bp.position).length →
        bp.collide b = some (b, false)) ∧
    (∀ (bp : Bumper) (b : Ball),
        (b.position - bp.position).length ≤ BUMPER_RADIUS + BALL_RADIUS →
        b.position ≠ bp.position →
        ∃ n b1, (b.position - bp.position).normalize = some n ∧
          bp.collide b = some (b1, true) ∧
          b1.velocity = b.velocity.reflect n + (0.4 * BUMPER_FORCE) • n ∧
          b1.position = bp.position + (BUMPER_RADIUS + BALL_RADIUS + 2) • n ∧
          (b1.position - bp.position).length = BUMPER_RADIUS + BALL_RADIUS + 2) ∧
    (∀ (cx cy d v : ℝ), 0 < d → d ≤ BUMPER_RADIUS + BALL_RADIUS → 0 < v →
        ∃ b1, (Bumper.mk ⟨cx, cy⟩ 150).collide ⟨⟨cx, cy - d⟩, ⟨0, v⟩⟩ = some (b1, true) ∧
          b1.velocity = ⟨0, -(v + 0.4 * BUMPER_FORCE)⟩ ∧
          b1.position = ⟨cx, cy - (BUMPER_RADIUS + BALL_RADIUS + 2)⟩ ∧
          b1.velocity.y < 0) := by
  refine ⟨Bumper.collide_far, Bumper.bumper_contact_result, ?_⟩
  intro cx cy d v hd hdle hv
  have hdisp : (⟨⟨cx, cy - d⟩, ⟨0, v⟩⟩ : Ball).position - (Bumper.mk ⟨cx, cy⟩ 150).position =
      ⟨0, -d⟩ := by
    rw [Vec2.eq_coords_iff]
    constructor <;> simp
  have hlen : Vec2.length ⟨0, -d⟩ = d := by
    rw [Vec2.length_vert, abs_neg, abs_of_pos hd]
  refine ⟨⟨(Bumper.mk ⟨cx, cy⟩ 150).position + (BUMPER_RADIUS + BALL_RADIUS + 2) • ⟨0, -1⟩,
    Vec2.reflect ⟨0, v⟩ ⟨0, -1⟩ + (0.4 : ℝ) • (BUMPER_FORCE • ⟨0, -1⟩)⟩, ?_, ?_, ?_, ?_⟩
  · simp only [Bumper.collide]
    rw [hdisp, hlen, if_pos hdle, Vec2.normalize_vert_neg d hd]
  · show Vec2.reflect ⟨0, v⟩ ⟨0, -1⟩ + (0.4 : ℝ) • (BUMPER_FORCE • ⟨0, -1⟩) =
      (⟨0, -(v + 0.4 * BUMPER_FORCE)⟩ : Vec2)
    unfold Vec2.reflect Vec2.dot
    rw [Vec2.eq_coords_iff]
    constructor <;> simp <;> ring_nf <;> norm_num
  · show (Bumper.mk ⟨cx, cy⟩ 150).position + (BUMPER_RADIUS + BALL_RADIUS + 2) • ⟨0, -1⟩ =
      (⟨cx, cy - (BUMPER_RADIUS + BALL_RADIUS + 2)⟩ : Vec2)
    rw [Vec2.eq_coords_iff]
    constructor <;> simp <;> ring
  · show (Vec2.reflect ⟨0, v⟩ ⟨0, -1⟩ + (0.4 : ℝ) • (BUMPER_FORCE • ⟨0, -1⟩)).y < 0
    unfold Vec2.reflect Vec2.dot BUMPER_FORCE
    simp
    ring_nf
    nlinarith [hv]

/-- Witness for C5 at a concrete bumper and two concrete balls, one in
range straight above the center and one far away. -/
theorem bumper_collide_spec_witness :
    (Bumper.mk ⟨0, 0⟩ 150).collide ⟨⟨0, 200⟩, ⟨0, 0⟩⟩ = some (⟨⟨0, 200⟩, ⟨0, 0⟩⟩, false) ∧
    ∃ b1, (Bumper.mk ⟨0, 0⟩ 150).collide ⟨⟨0, 0 - 40⟩, ⟨0, 100⟩⟩ = some (b1, true) ∧
      b1.velocity = ⟨0, -(100 + 0.4 * BUMPER_FORCE)⟩ ∧
      b1.position = ⟨0, 0 - (BUMPER_RADIUS + BALL_RADIUS + 2)⟩ ∧
      b1.velocity.y < 0 := by
  constructor
  · apply bumper_collide_spec.1
    have : (⟨⟨0, 200⟩, ⟨0, 0⟩⟩ : Ball).position - (Bumper.mk ⟨0, 0⟩ 150).position = ⟨0, 200⟩ := by
      rw [Vec2.eq_coords_iff]
      constructor <;> simp
    rw [this, Vec2.length_vert]
    unfold BUMPER_RADIUS BALL_RADIUS
    norm_num
  · exact bumper_collide_spec.2.2 0 0 40 100 (by norm_num)
      (by unfold BUMPER_RADIUS BALL_RADIUS; norm_num) (by norm_num)

/- Flipper collision facts. -/

lemma cos_sin_unit (a : ℝ) : Vec2.length ⟨Real.cos a, Real.sin a⟩ = 1 := by
  unfold Vec2.length
  rw [Real.cos_sq_add_sin_sq]
  exact Real.sqrt_one

lemma cos_negsin_unit (a : ℝ) : Vec2.length ⟨Real.cos a, -Real.sin a⟩ = 1 := by
  unfold Vec2.length
  rw [show Real.cos a ^ 2 + (-Real.sin a) ^ 2 = Real.cos a ^ 2 + Real.sin a ^ 2 by ring,
    Real.cos_sq_add_sin_sq]
  exact Real.sqrt_one

/-- The pivot-to-tip direction always normalizes (its length is the
fixed nonzero flipper length), to the unit vector of the current
angle, vertically mirrored for the right flipper. -/
lemma flipper_dir_normalize (f : Flipper) :
    (f.get_tip - f.pivot).normalize =
      some (if f.is_left then (⟨Real.cos f.angle, Real.sin f.angle⟩ : Vec2)
            else ⟨Real.cos f.angle, -Real.sin f.angle⟩) := by
  have hL110 : FLIPPER_LENGTH = 110 := rfl
  by_cases hL : f.is_left
  · simp only [Flipper.get_tip, hL, if_true]
    rw [Vec2.add_sub_cancel_left]
    have hlen : (FLIPPER_LENGTH • (⟨Real.cos f.angle, Real.sin f.angle⟩ : Vec2)).length =
        FLIPPER_LENGTH := by
      rw [Vec2.length_smul, cos_sin_unit, mul_one,
        abs_of_nonneg (by rw [hL110]; norm_num)]
    rw [Vec2.normalize_of_ne_zero (by rw [hlen, hL110]; norm_num), hlen]
    congr 1
    rw [Vec2.eq_coords_iff]
    constructor
    · show FLIPPER_LENGTH * Real.cos f.angle / FLIPPER_LENGTH = Real.cos f.angle
      rw [mul_div_cancel_left₀ _ (by rw [hL110]; norm_num)]
    · show FLIPPER_LENGTH * Real.sin f.angle / FLIPPER_LENGTH = Real.sin f.angle
      rw [mul_div_cancel_left₀ _ (by rw [hL110]; norm_num)]
  · rw [Bool.not_eq_true] at hL
    simp only [Flipper.get_tip, hL, Bool.false_eq_true, if_false]
    rw [Vec2.add_sub_cancel_left]
    have hlen : (FLIPPER_LENGTH • (⟨Real.cos f.angle, -Real.sin f.angle⟩ : Vec2)).length =
        FLIPPER_LENGTH := by
      rw [Vec2.length_smul, cos_negsin_unit, mul_one,
        abs_of_nonneg (by rw [hL110]; norm_num)]
    rw [Vec2.normalize_of_ne_zero (by rw [hlen, hL110]; norm_num), hlen]
    congr 1
    rw [Vec2.eq_coords_iff]
    constructor
    · show FLIPPER_LENGTH * Real.cos f.angle / FLIPPER_LENGTH = Real.cos f.angle
      rw [mul_div_cancel_left₀ _ (by rw [hL110]; norm_num)]
    · show FLIPPER_LENGTH * -Real.sin f.angle / FLIPPER_LENGTH = -Real.sin f.angle
      rw [mul_div_cancel_left₀ _ (by rw [hL110]; norm_num)]

/-- Reduction of Flipper.collide once the segment direction is known. -/
lemma Flipper.collide_eq_of_dir (f : Flipper) (b : Ball) (d : Vec2)
    (hd : (f.get_tip - f.pivot).normalize = some d) :
    f.collide b =
      (if (b.position - (f.pivot +
            (max 0 (min FLIPPER_LENGTH ((b.position - f.pivot).dot d))) • d)).length ≤
          BALL_RADIUS + FLIPPER_WIDTH / 2 then
        match (b.position - (f.pivot +
            (max 0 (min FLIPPER_LENGTH ((b.position - f.pivot).dot d))) • d)).normalize with
        | none => none
        | some normal =>
          some (⟨b.position + (4 : ℝ) • normal,
            ⟨(b.velocity.reflect normal + (120 : ℝ) • normal).x,
             (b.velocity.reflect normal + (120 : ℝ) • normal).y -
               (if f.is_left then 60 else 0)⟩⟩, true)
      else some (b, false)) := by
  simp only [Flipper.collide]
  rw [hd]

lemma Flipper.flipper_contact_result (f : Flipper) (b : Ball) (d : Vec2)
    (hd : (f.get_tip - f.pivot).normalize = some d)
    (hle : (b.position - (f.pivot +
        (max 0 (min FLIPPER_LENGTH ((b.position - f.pivot).dot d))) • d)).length ≤
      BALL_RADIUS + FLIPPER_WIDTH / 2)
    (hne : b.position ≠ f.pivot +
        (max 0 (min FLIPPER_LENGTH ((b.position - f.pivot).dot d))) • d) :
    ∃ n b1, (b.position - (f.pivot +
        (max 0 (min FLIPPER_LENGTH ((b.position - f.pivot).dot d))) • d)).normalize = some n ∧
      f.collide b = some (b1, true) ∧
      b1.position = b.position + (4 : ℝ) • n ∧
      b1.velocity.x = (b.velocity.reflect n + (120 : ℝ) • n).x ∧
      b1.velocity.y = (b.velocity.reflect n + (120 : ℝ) • n).y -
        (if f.is_left then 60 else 0) := by
  set cp := f.pivot + (max 0 (min FLIPPER_LENGTH ((b.position - f.pivot).dot d))) • d with hcp
  have hlen0 : (b.position - cp).length ≠ 0 := by
    rw [Ne, Vec2.length_eq_zero_iff, Vec2.sub_eq_zero_iff]
    exact hne
  have hn := Vec2.normalize_of_ne_zero hlen0
  refine ⟨⟨(b.position - cp).x / (b.position - cp).length,
      (b.position - cp).y / (b.position - cp).length⟩,
    ⟨b.position + (4 : ℝ) • ⟨(b.position - cp).x / (b.position - cp).length,
        (b.position - cp).y / (b.position - cp).length⟩,
      ⟨(b.velocity.reflect ⟨(b.position - cp).x / (b.position - cp).length,
            (b.position - cp).y / (b.position - cp).length⟩ +
          (120 : ℝ) • ⟨(b.position - cp).x / (b.position - cp).length,
            (b.position - cp).y / (b.position - cp).length⟩).x,
       (b.velocity.reflect ⟨(b.position - cp).x / (b.position - cp).length,
            (b.position - cp).y / (b.position - cp).length⟩ +
          (120 : ℝ) • ⟨(b.position - cp).x / (b.position - cp).length,
            (b.position - cp).y / (b.position - cp).length⟩).y -
         (if f.is_left then 60 else 0)⟩⟩,
    hn, ?_, rfl, rfl, rfl⟩
  rw [Flipper.collide_eq_of_dir f b d hd]
  rw [← hcp, if_pos hle, hn]

/-- Claim C6: flipper-ball contact is the capsule test against the
closest point of the clamped pivot-to-tip segment; on contact the
velocity reflects about the contact normal with an outward impulse,
the ball is pushed out along the normal by the fixed margin, the left
flipper alone adds the fixed upward kick, and the call reports true
exactly on contact. -/
theorem flipper_collide_spec :
    (∀ (f : Flipper) (b : Ball) (d : Vec2),
        (f.get_tip - f.pivot).normalize = some d →
        BALL_RADIUS + FLIPPER_WIDTH / 2 < (b.position - (f.pivot +
          (max 0 (min FLIPPER_LENGTH ((b.position - f.pivot).dot d))) • d)).length →
        f.collide b = some (b, false)) ∧
    (∀ (f : Flipper) (b : Ball) (d : Vec2),
        0 ≤ max 0 (min FLIPPER_LENGTH ((b.position - f.pivot).dot d)) ∧
        max 0 (min FLIPPER_LENGTH ((b.position - f.pivot).dot d)) ≤ FLIPPER_LENGTH) ∧
    (∀ (f : Flipper) (b : Ball) (d : Vec2),
        (f.get_tip - f.pivot).normalize = some d →
        (b.position - (f.pivot +
          (max 0 (min FLIPPER_LENGTH ((b.position - f.pivot).dot d))) • d)).length ≤
          BALL_RADIUS + FLIPPER_WIDTH / 2 →
        b.position ≠ f.pivot +
          (max 0 (min FLIPPER_LENGTH ((b.position - f.pivot).dot d))) • d →
        ∃ n b1, (b.position - (f.pivot +
            (max 0 (min FLIPPER_LENGTH ((b.position - f.pivot).dot d))) • d)).normalize =
              some n ∧
          f.collide b = some (b1, true) ∧
          b1.position = b.position + (4 : ℝ) • n ∧
          b1.velocity.x = (b.velocity.reflect n + (120 : ℝ) • n).x ∧
          b1.velocity.y = (b.velocity.reflect n + (120 : ℝ) • n).y -
            (if f.is_left then 60 else 0)) := by
  refine ⟨?_, ?_, Flipper.flipper_contact_result⟩
  · intro f b d hd hfar
    rw [Flipper.collide_eq_of_dir f b d hd, if_neg (not_le.mpr hfar)]
  · intro f b d
    constructor
    · exact le_max_left 0 _
    · apply max_le
      · have : (0 : ℝ) ≤ 110 := by norm_num
        exact le_of_eq_of_le (by rfl : (0 : ℝ) = 0) (by
          show (0 : ℝ) ≤ FLIPPER_LENGTH
          norm_num [FLIPPER_LENGTH])
      · exact min_le_left _ _

/-- Witness for C6: a left flipper at angle 0 with a ball close above
the paddle body collides, and the same flipper with a ball far above
does not. -/
theorem flipper_collide_spec_witness :
    (⟨⟨0, 0⟩, true, 0, false⟩ : Flipper).collide ⟨⟨50, 100⟩, ⟨0, 30⟩⟩ =
      some (⟨⟨50, 100⟩, ⟨0, 30⟩⟩, false) ∧
    ∃ n b1, ((⟨⟨50, 10⟩, ⟨0, 30⟩⟩ : Ball).position - ((⟨0, 0⟩ : Vec2) +
        (max 0 (min FLIPPER_LENGTH (((⟨⟨50, 10⟩, ⟨0, 30⟩⟩ : Ball).position - ⟨0, 0⟩).dot
          ⟨1, 0⟩))) • ⟨1, 0⟩)).normalize = some n ∧
      (⟨⟨0, 0⟩, true, 0, false⟩ : Flipper).collide ⟨⟨50, 10⟩, ⟨0, 30⟩⟩ = some (b1, true) ∧
      b1.position = (⟨⟨50, 10⟩, ⟨0, 30⟩⟩ : Ball).position + (4 : ℝ) • n := by
  have hd : ((⟨⟨0, 0⟩, true, 0, false⟩ : Flipper).get_tip -
      (⟨⟨0, 0⟩, true, 0, false⟩ : Flipper).pivot).normalize = some ⟨1, 0⟩ := by
    rw [flipper_dir_normalize]
    norm_num [Real.cos_zero, Real.sin_zero]
  have hdot : ∀ py : ℝ, ((⟨⟨50, py⟩, ⟨0, 30⟩⟩ : Ball).position -
      (⟨⟨0, 0⟩, true, 0, false⟩ : Flipper).pivot).dot ⟨1, 0⟩ = 50 := by
    intro py
    show (50 - 0) * 1 + (py - 0) * 0 = 50
    ring
  have hproj : max 0 (min FLIPPER_LENGTH (50 : ℝ)) = 50 := by
    rw [min_eq_right (by norm_num [FLIPPER_LENGTH]), max_eq_right (by norm_num)]
  have hcp : ∀ py : ℝ, (⟨⟨0, 0⟩, true, 0, false⟩ : Flipper).pivot + (50 : ℝ) • (⟨1, 0⟩ : Vec2) =
      ⟨50, 0⟩ := by
    intro py
    rw [Vec2.eq_coords_iff]
    constructor <;> simp
  constructor
  · apply flipper_collide_spec.1 _ _ _ hd
    rw [hdot, hproj, hcp 100]
    have : (⟨⟨50, 100⟩, ⟨0, 30⟩⟩ : Ball).position - (⟨50, 0⟩ : Vec2) = ⟨0, 100⟩ := by
      rw [Vec2.eq_coords_iff]
      constructor <;> simp
    rw [this, Vec2.length_vert]
    norm_num [BALL_RADIUS, FLIPPER_WIDTH]
  · have hmain := flipper_collide_spec.2.2 (⟨⟨0, 0⟩, true, 0, false⟩ : Flipper)
      ⟨⟨50, 10⟩, ⟨0, 30⟩⟩ ⟨1, 0⟩ hd
      (by
        rw [hdot, hproj, hcp 10]
        have : (⟨⟨50, 10⟩, ⟨0, 30⟩⟩ : Ball).position - (⟨50, 0⟩ : Vec2) = ⟨0, 10⟩ := by
          rw [Vec2.eq_coords_iff]
          constructor <;> simp
        rw [this, Vec2.length_vert]
        norm_num [BALL_RADIUS, FLIPPER_WIDTH])
      (by
        rw [hdot, hproj, hcp 10]
        intro heq
        have h10 : (10 : ℝ) = 0 := congrArg Vec2.y heq
        norm_num at h10)
    obtain ⟨n, b1, hn, hcol, hpos, _, _⟩ := hmain
    refine ⟨n, b1, ?_, hcol, hpos⟩
    rw [hdot, hproj] at hn ⊢
    exact hn

/- Collision-pass bookkeeping. -/

lemma flipperCollidePass_score (fs : List Flipper) :
    ∀ (b : Ball) (s : ℤ) (out : Ball × ℤ),
      flipperCollidePass fs b s = some out → out.2 = s := by
  induction fs with
  | nil =>
    intro b s out h
    simp only [flipperCollidePass] at h
    rw [← Option.some_inj.mp h]
  | cons f rest ih =>
    intro b s out h
    simp only [flipperCollidePass] at h
    cases hc : f.collide b with
    | none =>
      rw [hc] at h
      exact absurd h (by simp)
    | some p =>
      obtain ⟨b1, hit⟩ := p
      rw [hc] at h
      exact ih b1 s out h

lemma collideBumpers_mono (l : List Bumper) :
    ∀ (b : Ball) (s : ℤ) (out : Ball × ℤ),
      (∀ bp ∈ l, 0 ≤ bp.value) →
      collideBumpers l b s = some out → s ≤ out.2 := by
  induction l with
  | nil =>
    intro b s out _ h
    simp only [collideBumpers] at h
    rw [← Option.some_inj.mp h]
  | cons bp rest ih =>
    intro b s out hval h
    simp only [collideBumpers] at h
    cases hc : bp.collide b with
    | none =>
      rw [hc] at h
      exact absurd h (by simp)
    | some p =>
      obtain ⟨b1, hit⟩ := p
      rw [hc] at h
      have hstep : s ≤ if hit = true then s + bp.value else s := by
        split
        · have := hval bp (List.mem_cons_self bp rest)
          linarith
        · exact le_rfl
      exact le_trans hstep (ih b1 _ out (fun q hq => hval q (List.mem_cons_of_mem bp hq)) h)

lemma collideBumpers_far (l : List Bumper) :
    ∀ (b : Ball) (s : ℤ),
      (∀ bp ∈ l, BUMPER_RADIUS + BALL_RADIUS < |b.position.y - bp.position.y|) →
      collideBumpers l b s = some (b, s) := by
  induction l with
  | nil =>
    intro b s _
    simp only [collideBumpers]
  | cons bp rest ih =>
    intro b s h
    have hfar : bp.collide b = some (b, false) := by
      apply Bumper.collide_far
      calc BUMPER_RADIUS + BALL_RADIUS < |b.position.y - bp.position.y| :=
            h bp (List.mem_cons_self bp rest)
        _ = |(b.position - bp.position).y| := rfl
        _ ≤ (b.position - bp.position).length := Vec2.abs_y_le_length _
    simp only [collideBumpers, hfar]
    exact ih b s (fun q hq => h q (List.mem_cons_of_mem bp hq))

lemma collideBumpers_far_below (l : List Bumper) (b : Ball) (s : ℤ)
    (h : ∀ bp ∈ l, bp.position.y + (BUMPER_RADIUS + BALL_RADIUS) < b.position.y) :
    collideBumpers l b s = some (b, s) := by
  apply collideBumpers_far
  intro bp hbp
  have := h bp hbp
  have habs : b.position.y - bp.position.y ≤ |b.position.y - bp.position.y| := le_abs_self _
  linarith

/-- A flipper cannot touch a ball horizontally farther from the pivot
than the flipper length plus the capsule radius. -/
lemma flipper_collide_far_x (f : Flipper) (b : Ball)
    (h : FLIPPER_LENGTH + (BALL_RADIUS + FLIPPER_WIDTH / 2) < |b.position.x - f.pivot.x|) :
    f.collide b = some (b, false) := by
  have hd := flipper_dir_normalize f
  set d : Vec2 := if f.is_left then (⟨Real.cos f.angle, Real.sin f.angle⟩ : Vec2)
    else ⟨Real.cos f.angle, -Real.sin f.angle⟩ with hd_def
  have hdx : |d.x| ≤ 1 := by
    rw [hd_def]
    split
    · exact Real.abs_cos_le_one f.angle
    · exact Real.abs_cos_le_one f.angle
  rw [Flipper.collide_eq_of_dir f b d hd]
  rw [if_neg]
  rw [not_le]
  set t := max 0 (min FLIPPER_LENGTH ((b.position - f.pivot).dot d)) with ht_def
  have ht0 : 0 ≤ t := le_max_left _ _
  have ht1 : t ≤ FLIPPER_LENGTH := by
    apply max_le
    · show (0 : ℝ) ≤ FLIPPER_LENGTH
      norm_num [FLIPPER_LENGTH]
    · exact min_le_left _ _
  have htd : |t * d.x| ≤ FLIPPER_LENGTH := by
    rw [abs_mul, abs_of_nonneg ht0]
    calc t * |d.x| ≤ t * 1 := by nlinarith
      _ = t := mul_one t
      _ ≤ FLIPPER_LENGTH := ht1
  calc BALL_RADIUS + FLIPPER_WIDTH / 2
      < |b.position.x - f.pivot.x| - FLIPPER_LENGTH := by linarith
    _ ≤ |b.position.x - f.pivot.x| - |t * d.x| := by linarith
    _ ≤ |b.position.x - f.pivot.x - t * d.x| := abs_sub_abs_le_abs_sub _ _
    _ = |(b.position - (f.pivot + t • d)).x| := by
        congr 1
        show b.position.x - f.pivot.x - t * d.x = b.position.x - (f.pivot.x + t * d.x)
        ring
    _ ≤ (b.position - (f.pivot + t • d)).length := Vec2.abs_x_le_length _

/-- Reduction of the collision phase when a ball is live. -/
lemma handle_collisions_some (g : Game) (b : Ball) (g' : Game) (hb : g.ball = some b)
    (h : g.handle_collisions = some g') :
    ∃ b1 b2, flipperCollidePass [g.left_flipper, g.right_flipper] b g.score =
        some (b1, g.score) ∧
      collideBumpers g.bumpers b1 g.score = some (b2, g'.score) ∧ g'.ball = some b2 := by
  simp only [Game.handle_collisions, hb] at h
  cases hp : flipperCollidePass [g.left_flipper, g.right_flipper] b g.score with
  | none =>
    rw [hp] at h
    exact absurd h (by simp)
  | some p =>
    obtain ⟨b1, s1⟩ := p
    have hs1 : s1 = g.score := flipperCollidePass_score _ b g.score (b1, s1) hp
    rw [hp] at h
    have h2 : (match collideBumpers g.bumpers b1 s1 with
      | none => none
      | some (b2, s2) => some { g with ball := some b2, score := s2 }) = some g' := h
    cases hcb : collideBumpers g.bumpers b1 s1 with
    | none =>
      rw [hcb] at h2
      exact absurd h2 (by simp)
    | some q =>
      obtain ⟨b2, s2⟩ := q
      rw [hcb] at h2
      have hg' : g' = { g with ball := some b2, score := s2 } := (Option.some_inj.mp h2).symm
      subst hs1
      refine ⟨b1, b2, rfl, ?_, ?_⟩
      · rw [hg']
        exact hcb
      · rw [hg']

/-- Claim C10: the flipper collision pass discards the collide results
and never touches the score: whatever a tick's flipper phase does to
the ball, the score after it equals the score before it, and the final
score of the collision phase comes from the bumper pass alone. -/
theorem flipper_collisions_never_score :
    (∀ (fs : List Flipper) (b : Ball) (s : ℤ) (out : Ball × ℤ),
        flipperCollidePass fs b s = some out → out.2 = s) ∧
    (∀ (g : Game) (b : Ball) (g' : Game), g.ball = some b → g.handle_collisions = some g' →
        ∃ b1 b2, flipperCollidePass [g.left_flipper, g.right_flipper] b g.score =
            some (b1, g.score) ∧
          collideBumpers g.bumpers b1 g.score = some (b2, g'.score) ∧ g'.ball = some b2) :=
  ⟨fun fs => flipperCollidePass_score fs,
   fun g b g' hb h => handle_collisions_some g b g' hb h⟩

/-- Witness for C10: a concrete game whose ball is away from every
obstacle runs a full collision phase with unchanged score. -/
theorem flipper_collisions_never_score_witness :
    ∃ b1 b2,
      flipperCollidePass
          [({ Game.init with ball := some ⟨⟨700, 700⟩, ⟨0, 0⟩⟩, score := 7 } : Game).left_flipper,
           ({ Game.init with ball := some ⟨⟨700, 700⟩, ⟨0, 0⟩⟩, score := 7 } : Game).right_flipper]
          ⟨⟨700, 700⟩, ⟨0, 0⟩⟩
          ({ Game.init with ball := some ⟨⟨700, 700⟩, ⟨0, 0⟩⟩, score := 7 } : Game).score =
        some (b1, ({ Game.init with ball := some ⟨⟨700, 700⟩, ⟨0, 0⟩⟩, score := 7 } : Game).score) ∧
      collideBumpers ({ Game.init with ball := some ⟨⟨700, 700⟩, ⟨0, 0⟩⟩, score := 7 } : Game).bumpers
          b1 ({ Game.init with ball := some ⟨⟨700, 700⟩, ⟨0, 0⟩⟩, score := 7 } : Game).score =
        some (b2, ({ Game.init with ball := some ⟨⟨700, 700⟩, ⟨0, 0⟩⟩, score := 7 } : Game).score) ∧
      ({ Game.init with ball := some ⟨⟨700, 700⟩, ⟨0, 0⟩⟩, score := 7 } : Game).ball = some b2 := by
  have hfl : (Game.init.left_flipper).collide ⟨⟨700, 700⟩, ⟨0, 0⟩⟩ =
      some (⟨⟨700, 700⟩, ⟨0, 0⟩⟩, false) := by
    apply flipper_collide_far_x
    show FLIPPER_LENGTH + (BALL_RADIUS + FLIPPER_WIDTH / 2) < |(700 : ℝ) - 270|
    norm_num [FLIPPER_LENGTH, BALL_RADIUS, FLIPPER_WIDTH]
  have hfr : (Game.init.right_flipper).collide ⟨⟨700, 700⟩, ⟨0, 0⟩⟩ =
      some (⟨⟨700, 700⟩, ⟨0, 0⟩⟩, false) := by
    apply flipper_collide_far_x
    show FLIPPER_LENGTH + (BALL_RADIUS + FLIPPER_WIDTH / 2) < |(700 : ℝ) - 530|
    norm_num [FLIPPER_LENGTH, BALL_RADIUS, FLIPPER_WIDTH]
  have hpass : flipperCollidePass [Game.init.left_flipper, Game.init.right_flipper]
      ⟨⟨700, 700⟩, ⟨0, 0⟩⟩ 7 = some (⟨⟨700, 700⟩, ⟨0, 0⟩⟩, 7) := by
    simp only [flipperCollidePass, hfl, hfr]
  have hbump : collideBumpers Game.init.bumpers ⟨⟨700, 700⟩, ⟨0, 0⟩⟩ 7 =
      some (⟨⟨700, 700⟩, ⟨0, 0⟩⟩, 7) := by
    apply collideBumpers_far_below
    intro bp hbp
    have hbp2 : bp ∈
        ([⟨⟨220, 260⟩, 150⟩, ⟨⟨320, 260⟩, 150⟩, ⟨⟨480, 260⟩, 150⟩, ⟨⟨580, 260⟩, 150⟩,
          ⟨⟨220, 360⟩, 150⟩, ⟨⟨320, 360⟩, 150⟩, ⟨⟨480, 360⟩, 150⟩, ⟨⟨580, 360⟩, 150⟩,
          ⟨⟨220, 460⟩, 150⟩, ⟨⟨320, 460⟩, 150⟩, ⟨⟨480, 460⟩, 150⟩, ⟨⟨580, 460⟩, 150⟩,
          ⟨⟨400, 560⟩, 250⟩] : List Bumper) := hbp
    fin_cases hbp2 <;>
      (show _ + (BUMPER_RADIUS + BALL_RADIUS) < (700 : ℝ)
       norm_num [BUMPER_RADIUS, BALL_RADIUS])
  have hhc : ({ Game.init with ball := some ⟨⟨700, 700⟩, ⟨0, 0⟩⟩, score := 7 } : Game).handle_collisions =
      some ({ Game.init with ball := some ⟨⟨700, 700⟩, ⟨0, 0⟩⟩, score := 7 } : Game) := by
    simp only [Game.handle_collisions, hpass, hbump]
  exact flipper_collisions_never_score.2 _ ⟨⟨700, 700⟩, ⟨0, 0⟩⟩ _ rfl hhc

/- Tick-level score accounting. -/

lemma flipper_rest_fixed (f : Flipper) (dt : ℝ) (ha : f.angle = FLIPPER_REST_ANGLE) :
    (f.toggle false).update dt = f.toggle false := by
  have htgt : (f.toggle false).target_angle = FLIPPER_REST_ANGLE := by
    unfold Flipper.target_angle Flipper.toggle
    simp
  simp only [Flipper.update]
  rw [if_pos (show isclose (f.toggle false).angle (f.toggle false).target_angle by
    rw [htgt]
    show isclose f.angle FLIPPER_REST_ANGLE
    rw [ha]
    exact isclose_self _)]
  rw [htgt]
  show { f.toggle false with angle := FLIPPER_REST_ANGLE } = f.toggle false
  rw [← ha]
  rfl

lemma Game.update_no_ball (g : Game) (lk rk : Bool) (dt : ℝ) (hb : g.ball = none) :
    g.update lk rk dt = some { g with
      left_flipper := (g.left_flipper.toggle lk).update dt,
      right_flipper := (g.right_flipper.toggle rk).update dt } := by
  simp only [Game.update, hb]

lemma game_init_update_zero : Game.init.update false false 0 = some Game.init := by
  have hl : (Game.init.left_flipper.toggle false).update 0 = Game.init.left_flipper.toggle false :=
    flipper_rest_fixed _ 0 rfl
  have hr : (Game.init.right_flipper.toggle false).update 0 = Game.init.right_flipper.toggle false :=
    flipper_rest_fixed _ 0 rfl
  rw [Game.update_no_ball Game.init false false 0 rfl, hl, hr]
  rfl

lemma handle_collisions_score_mono (g g3 : Game)
    (hval : ∀ bp ∈ g.bumpers, 0 ≤ bp.value)
    (h : g.handle_collisions = some g3) : g.score ≤ g3.score := by
  cases hb : g.ball with
  | none =>
    have h2 : Game.handle_collisions g = some g := by
      simp [Game.handle_collisions, hb]
    rw [h2] at h
    rw [Option.some_inj.mp h]
  | some b =>
    obtain ⟨b1, b2, _, hcb, _⟩ := handle_collisions_some g b g3 hb h
    exact collideBumpers_mono g.bumpers b1 g.score (b2, g3.score) hval hcb

lemma drain_step_score (g3 g' : Game)
    (h : (match g3.ball with
      | none => some g3
      | some b3 =>
        if b3.position.y - BALL_RADIUS > HEIGHT + 40 then some { g3 with ball := none }
        else some g3) = some g') : g'.score = g3.score := by
  cases hb3 : g3.ball with
  | none =>
    rw [hb3] at h
    rw [← Option.some_inj.mp h]
  | some b3 =>
    rw [hb3] at h
    have h2 : (if b3.position.y - BALL_RADIUS > HEIGHT + 40 then some { g3 with ball := none }
        else some g3) = some g' := h
    by_cases hd : b3.position.y - BALL_RADIUS > HEIGHT + 40
    · rw [if_pos hd] at h2
      rw [← Option.some_inj.mp h2]
    · rw [if_neg hd] at h2
      rw [← Option.some_inj.mp h2]

lemma Game.update_score_mono (g g' : Game) (lk rk : Bool) (dt : ℝ)
    (hval : ∀ bp ∈ g.bumpers, 0 ≤ bp.value)
    (h : g.update lk rk dt = some g') : g.score ≤ g'.score := by
  simp only [Game.update] at h
  cases hb : g.ball with
  | none =>
    rw [hb] at h
    have h2 : (some (Game.mk ((g.left_flipper.toggle lk).update dt)
        ((g.right_flipper.toggle rk).update dt) g.bumpers none g.score) : Option Game) =
          some g' := h
    rw [← Option.some_inj.mp h2]
  | some b =>
    rw [hb] at h
    have h2 : (match Game.handle_collisions (Game.mk ((g.left_flipper.toggle lk).update dt)
        ((g.right_flipper.toggle rk).update dt) g.bumpers (some (b.update dt)) g.score) with
      | none => none
      | some g3 =>
        match g3.ball with
        | none => some g3
        | some b3 =>
          if b3.position.y - BALL_RADIUS > HEIGHT + 40 then some { g3 with ball := none }
          else some g3) = some g' := h
    cases hhc : Game.handle_collisions (Game.mk ((g.left_flipper.toggle lk).update dt)
        ((g.right_flipper.toggle rk).update dt) g.bumpers (some (b.update dt)) g.score) with
    | none =>
      rw [hhc] at h2
      exact absurd h2 (by simp)
    | some g3 =>
      rw [hhc] at h2
      have h3 : (match g3.ball with
        | none => some g3
        | some b3 =>
          if b3.position.y - BALL_RADIUS > HEIGHT + 40 then some { g3 with ball := none }
          else some g3) = some g' := h2
      have hsc : g'.score = g3.score := drain_step_score g3 g' h3
      have hmono : (Game.mk ((g.left_flipper.toggle lk).update dt)
          ((g.right_flipper.toggle rk).update dt) g.bumpers (some (b.update dt)) g.score).score ≤
            g3.score :=
        handle_collisions_score_mono _ g3 (fun bp hbp => hval bp hbp) hhc
      rw [hsc]
      exact hmono

/-- Claim C4: a bumper contact adds exactly that bumper's fixed value
to the running score, a bumper out of range leaves it unchanged, and
the score is monotonically non-decreasing across launch requests and
whole simulation ticks (given the nonnegative bumper values of this
table). -/
theorem bumper_score_accounting :
    (∀ (bp : Bumper) (rest : List Bumper) (b b1 : Ball) (s : ℤ),
        bp.collide b = some (b1, true) →
        collideBumpers (bp :: rest) b s = collideBumpers rest b1 (s + bp.value)) ∧
    (∀ (bp : Bumper) (rest : List Bumper) (b : Ball) (s : ℤ),
        BUMPER_RADIUS + BALL_RADIUS < (b.position - bp.position).length →
        collideBumpers (bp :: rest) b s = collideBumpers rest b s) ∧
    (∀ (g : Game) (r : ℝ), (g.launch_request r).score = g.score) ∧
    (∀ (g g' : Game) (lk rk : Bool) (dt : ℝ),
        (∀ bp ∈ g.bumpers, 0 ≤ bp.value) →
        g.update lk rk dt = some g' → g.score ≤ g'.score) := by
  refine ⟨?_, ?_, ?_, fun g g' lk rk dt hval h => Game.update_score_mono g g' lk rk dt hval h⟩
  · intro bp rest b b1 s h
    simp [collideBumpers, h]
  · intro bp rest b s h
    have hc := Bumper.collide_far bp b h
    simp [collideBumpers, hc]
  · intro g r
    unfold Game.launch_request Game.launch_ball
    split <;> rfl

/-- Witness for C4: concrete contact and miss steps of the bumper
pass, a launch request, and a full zero-dt tick of the initial table. -/
theorem bumper_score_accounting_witness :
    (∃ b1, (Bumper.mk ⟨0, 0⟩ 150).collide ⟨⟨0, -40⟩, ⟨0, 100⟩⟩ = some (b1, true) ∧
      collideBumpers [Bumper.mk ⟨0, 0⟩ 150] ⟨⟨0, -40⟩, ⟨0, 100⟩⟩ 0 =
        collideBumpers [] b1 (0 + (Bumper.mk ⟨0, 0⟩ 150).value)) ∧
    collideBumpers [Bumper.mk ⟨0, 0⟩ 150] ⟨⟨0, 200⟩, ⟨0, 0⟩⟩ 3 =
      collideBumpers [] ⟨⟨0, 200⟩, ⟨0, 0⟩⟩ 3 ∧
    (Game.init.launch_request 0).score = Game.init.score ∧
    Game.init.score ≤ Game.init.score := by
  have hcol : (Bumper.mk ⟨0, 0⟩ 150).collide ⟨⟨0, -40⟩, ⟨0, 100⟩⟩ =
      some (⟨(⟨0, 0⟩ : Vec2) + (BUMPER_RADIUS + BALL_RADIUS + 2) • ⟨0, -1⟩,
        Vec2.reflect ⟨0, 100⟩ ⟨0, -1⟩ + (0.4 : ℝ) • (BUMPER_FORCE • ⟨0, -1⟩)⟩, true) := by
    simp only [Bumper.collide]
    have hdisp : (⟨⟨0, -40⟩, ⟨0, 100⟩⟩ : Ball).position - (Bumper.mk ⟨0, 0⟩ 150).position =
        ⟨0, -40⟩ := by
      rw [Vec2.eq_coords_iff]
      constructor <;> simp
    rw [hdisp]
    rw [show Vec2.length ⟨0, (-40 : ℝ)⟩ = 40 from by rw [Vec2.length_vert]; norm_num]
    rw [if_pos (show (40 : ℝ) ≤ BUMPER_RADIUS + BALL_RADIUS by
      unfold BUMPER_RADIUS BALL_RADIUS
      norm_num)]
    rw [show (⟨0, (-40 : ℝ)⟩ : Vec2) = ⟨0, -(40 : ℝ)⟩ from rfl,
      Vec2.normalize_vert_neg 40 (by norm_num)]
  refine ⟨⟨_, hcol, bumper_score_accounting.1 _ [] _ _ 0 hcol⟩, ?_, ?_, ?_⟩
  · apply bumper_score_accounting.2.1
    have hdisp : (⟨⟨0, 200⟩, ⟨0, 0⟩⟩ : Ball).position - (Bumper.mk ⟨0, 0⟩ 150).position =
        ⟨0, 200⟩ := by
      rw [Vec2.eq_coords_iff]
      constructor <;> simp
    rw [hdisp, Vec2.length_vert]
    unfold BUMPER_RADIUS BALL_RADIUS
    norm_num
  · exact bumper_score_accounting.2.2.1 Game.init 0
  · apply bumper_score_accounting.2.2.2 Game.init Game.init false false 0
    · intro bp hbp
      have hbp2 : bp ∈
          ([⟨⟨220, 260⟩, 150⟩, ⟨⟨320, 260⟩, 150⟩, ⟨⟨480, 260⟩, 150⟩, ⟨⟨580, 260⟩, 150⟩,
            ⟨⟨220, 360⟩, 150⟩, ⟨⟨320, 360⟩, 150⟩, ⟨⟨480, 360⟩, 150⟩, ⟨⟨580, 360⟩, 150⟩,
            ⟨⟨220, 460⟩, 150⟩, ⟨⟨320, 460⟩, 150⟩, ⟨⟨480, 460⟩, 150⟩, ⟨⟨580, 460⟩, 150⟩,
            ⟨⟨400, 560⟩, 250⟩] : List Bumper) := hbp
      fin_cases hbp2 <;> norm_num
    · exact game_init_update_zero

/- A concrete launch that puts the ball exactly on the right flipper
segment after two ticks, driving the contact-normal normalization to a
zero-length vector.  The horizontal draw crashH lies inside the
launch range [-120, 120]; the two tick lengths are 0.24 s and 0.66 s. -/

/-- The clamped projection parameter of the crash contact point along
the right flipper segment. -/
def crashU : ℝ := (961 / 25) / Real.sin (22 * Real.pi / 180)

/-- The horizontal launch velocity that steers the ball onto the
right flipper segment in two ticks. -/
def crashH : ℝ := (crashU * Real.cos (22 * Real.pi / 180) - 200) / (9 / 10)

lemma A_bounds : (0.383972 : ℝ) ≤ 22 * Real.pi / 180 ∧ (22 * Real.pi / 180 : ℝ) ≤ 0.383973 := by
  have h1 := Real.pi_gt_d6
  have h2 := Real.pi_lt_d6
  constructor <;> nlinarith

lemma sinA_bounds :
    (0.3734 : ℝ) ≤ Real.sin (22 * Real.pi / 180) ∧ Real.sin (22 * Real.pi / 180) ≤ 0.3757 := by
  obtain ⟨hA1, hA2⟩ := A_bounds
  set x := 22 * Real.pi / 180 with hx_def
  have hxpos : (0 : ℝ) < x := by linarith
  have hx1 : |x| ≤ 1 := by
    rw [abs_of_pos hxpos]
    linarith
  have hb := Real.sin_bound hx1
  rw [abs_of_pos hxpos, abs_le] at hb
  obtain ⟨hb1, hb2⟩ := hb
  have hx2l : (0.147434 : ℝ) ≤ x ^ 2 := by nlinarith
  have hx2u : x ^ 2 ≤ (0.147436 : ℝ) := by nlinarith
  have hx3l : (0.056610 : ℝ) ≤ x ^ 3 := by
    have := mul_le_mul hA1 hx2l (by norm_num) (le_of_lt hxpos)
    nlinarith [this]
  have hx3u : x ^ 3 ≤ (0.056612 : ℝ) := by
    have := mul_le_mul hA2 hx2u (sq_nonneg x) (by norm_num)
    nlinarith [this]
  have hx4u : x ^ 4 ≤ (0.021738 : ℝ) := by
    have := mul_le_mul hA2 hx3u (by nlinarith) (by norm_num)
    nlinarith [this]
  have hx4l : (0 : ℝ) ≤ x ^ 4 := by positivity
  constructor <;> nlinarith

lemma cosA_bounds :
    (0.9251 : ℝ) ≤ Real.cos (22 * Real.pi / 180) ∧ Real.cos (22 * Real.pi / 180) ≤ 0.9275 := by
  obtain ⟨hA1, hA2⟩ := A_bounds
  set x := 22 * Real.pi / 180 with hx_def
  have hxpos : (0 : ℝ) < x := by linarith
  have hx1 : |x| ≤ 1 := by
    rw [abs_of_pos hxpos]
    linarith
  have hb := Real.cos_bound hx1
  rw [abs_of_pos hxpos, abs_le] at hb
  obtain ⟨hb1, hb2⟩ := hb
  have hx2l : (0.147434 : ℝ) ≤ x ^ 2 := by nlinarith
  have hx2u : x ^ 2 ≤ (0.147436 : ℝ) := by nlinarith
  have hx3u : x ^ 3 ≤ (0.056612 : ℝ) := by
    have := mul_le_mul hA2 hx2u (sq_nonneg x) (by norm_num)
    nlinarith [this]
  have hx4u : x ^ 4 ≤ (0.021738 : ℝ) := by
    have := mul_le_mul hA2 hx3u (by nlinarith) (by norm_num)
    nlinarith [this]
  have hx4l : (0 : ℝ) ≤ x ^ 4 := by positivity
  constructor <;> nlinarith

lemma sinA_pos : 0 < Real.sin (22 * Real.pi / 180) := by
  have := sinA_bounds.1
  linarith

lemma crashU_bounds : (102.3 : ℝ) ≤ crashU ∧ crashU ≤ 102.95 := by
  obtain ⟨hs1, hs2⟩ := sinA_bounds
  have hspos := sinA_pos
  unfold crashU
  constructor
  · rw [le_div_iff hspos]
    nlinarith
  · rw [div_le_iff hspos]
    nlinarith

lemma crashUcos_bounds :
    (94.63 : ℝ) ≤ crashU * Real.cos (22 * Real.pi / 180) ∧
      crashU * Real.cos (22 * Real.pi / 180) ≤ 95.49 := by
  obtain ⟨hu1, hu2⟩ := crashU_bounds
  obtain ⟨hc1, hc2⟩ := cosA_bounds
  constructor
  · have := mul_le_mul hu1 hc1 (by norm_num) (by linarith)
    nlinarith [this]
  · have := mul_le_mul hu2 hc2 (by linarith) (by norm_num)
    nlinarith [this]

lemma crashH_bounds : (-117.1 : ℝ) ≤ crashH ∧ crashH ≤ -116.1 := by
  obtain ⟨h1, h2⟩ := crashUcos_bounds
  have heq : crashH = (crashU * Real.cos (22 * Real.pi / 180) - 200) * (10 / 9) := by
    unfold crashH
    ring
  rw [heq]
  constructor <;> nlinarith

lemma flipper_rest_noop (f : Flipper) (dt : ℝ) (ha : f.angle = FLIPPER_REST_ANGLE)
    (hact : f.activated = false) : (f.toggle false).update dt = f := by
  rw [flipper_rest_fixed f dt ha]
  unfold Flipper.toggle
  obtain ⟨p, il, an, ac⟩ := f
  subst hact
  rfl

lemma Game.update_rest_none (g : Game) (b : Ball) (dt : ℝ) (hb : g.ball = some b)
    (hlf : (g.left_flipper.toggle false).update dt = g.left_flipper)
    (hrf : (g.right_flipper.toggle false).update dt = g.right_flipper)
    (hhc : Game.handle_collisions (Game.mk g.left_flipper g.right_flipper g.bumpers
      (some (b.update dt)) g.score) = none) :
    g.update false false dt = none := by
  simp only [Game.update, hlf, hrf, hb, hhc]

lemma Game.update_rest_some (g : Game) (b : Ball) (dt : ℝ) (g3 : Game) (b3 : Ball)
    (hb : g.ball = some b)
    (hlf : (g.left_flipper.toggle false).update dt = g.left_flipper)
    (hrf : (g.right_flipper.toggle false).update dt = g.right_flipper)
    (hhc : Game.handle_collisions (Game.mk g.left_flipper g.right_flipper g.bumpers
      (some (b.update dt)) g.score) = some g3)
    (hb3 : g3.ball = some b3)
    (hnd : ¬(b3.position.y - BALL_RADIUS > HEIGHT + 40)) :
    g.update false false dt = some g3 := by
  simp only [Game.update, hlf, hrf, hb, hhc, hb3]
  rw [if_neg hnd]

/-- A ball whose center lies exactly on the clamped pivot-to-tip
segment produces a zero-length contact normal, on which the
normalization fails: the collision routine has no defined result. -/
lemma flipper_collide_on_segment (f : Flipper) (b : Ball) (u : ℝ)
    (hu0 : 0 ≤ u) (hu1 : u ≤ FLIPPER_LENGTH)
    (hb : b.position = f.pivot + u •
      (if f.is_left then (⟨Real.cos f.angle, Real.sin f.angle⟩ : Vec2)
       else ⟨Real.cos f.angle, -Real.sin f.angle⟩)) :
    f.collide b = none := by
  have hd := flipper_dir_normalize f
  set d : Vec2 := if f.is_left then (⟨Real.cos f.angle, Real.sin f.angle⟩ : Vec2)
    else ⟨Real.cos f.angle, -Real.sin f.angle⟩ with hd_def
  rw [Flipper.collide_eq_of_dir f b d hd]
  have hdd : d.dot d = 1 := by
    rw [hd_def]
    have hpyth := Real.cos_sq_add_sin_sq f.angle
    split
    · show Real.cos f.angle * Real.cos f.angle + Real.sin f.angle * Real.sin f.angle = 1
      nlinarith [hpyth]
    · show Real.cos f.angle * Real.cos f.angle + -Real.sin f.angle * -Real.sin f.angle = 1
      nlinarith [hpyth]
  have hdot : (b.position - f.pivot).dot d = u := by
    rw [hb, Vec2.add_sub_cancel_left]
    show u * d.x * d.x + u * d.y * d.y = u
    have : d.x * d.x + d.y * d.y = 1 := hdd
    nlinarith [this]
  have hproj : max 0 (min FLIPPER_LENGTH ((b.position - f.pivot).dot d)) = u := by
    rw [hdot, min_eq_right hu1, max_eq_right hu0]
  rw [hproj]
  have hzero : b.position - (f.pivot + u • d) = ⟨0, 0⟩ := by
    rw [Vec2.sub_eq_zero_iff]
    exact hb
  rw [hzero]
  have hlen0 : Vec2.length ⟨0, 0⟩ = 0 := by
    rw [Vec2.length_vert, abs_zero]
  rw [if_pos (by
    rw [hlen0]
    unfold BALL_RADIUS FLIPPER_WIDTH
    norm_num)]
  rw [Vec2.normalize_zero hlen0]

/-- Claim C3 (refuted on the code): the zero-length-normalization
error branch is reachable.  Launching from the initial table with the
in-range horizontal draw crashH and running two ticks of 0.24 s and
0.66 s puts the ball exactly on the right flipper's segment, where
the contact normal is the zero vector and its normalization (a
runtime error in the original program) is executed: the second tick
has no defined result. -/
theorem zero_length_normalize_reachable :
    (-120 ≤ crashH ∧ crashH ≤ 120) ∧
    ∃ g1 : Game, (Game.init.launch_ball crashH).update false false (6 / 25) = some g1 ∧
      g1.update false false (33 / 50) = none := by
  obtain ⟨hH1, hH2⟩ := crashH_bounds
  set bb0 : Ball := ⟨⟨730, 920⟩, ⟨crashH, -720⟩⟩ with hbb0
  set bb1 : Ball := ⟨⟨730 + crashH * (6 / 25), 19976 / 25⟩, ⟨crashH, -504⟩⟩ with hbb1
  set bb2 : Ball := ⟨⟨730 + crashH * (6 / 25) + crashH * (33 / 50), 21461 / 25⟩,
    ⟨crashH, 90⟩⟩ with hbb2
  set G1 : Game := Game.mk Game.init.left_flipper Game.init.right_flipper Game.init.bumpers
    (some bb1) Game.init.score with hG1
  have hlfix : ∀ dt : ℝ, (Game.init.left_flipper.toggle false).update dt =
      Game.init.left_flipper := fun dt => flipper_rest_noop _ dt rfl rfl
  have hrfix : ∀ dt : ℝ, (Game.init.right_flipper.toggle false).update dt =
      Game.init.right_flipper := fun dt => flipper_rest_noop _ dt rfl rfl
  -- tick 1: free flight, no wall, no collision
  have hball1 : bb0.update (6 / 25) = bb1 := by
    rw [hbb0, hbb1]
    have h1 : 20 ≤ 730 + crashH * (6 / 25) - BALL_RADIUS := by
      unfold BALL_RADIUS
      nlinarith
    have h2 : 730 + crashH * (6 / 25) + BALL_RADIUS ≤ WIDTH - 20 := by
      unfold BALL_RADIUS WIDTH
      nlinarith
    have h3 : 20 ≤ 920 + (-720 + GRAVITY * (6 / 25)) * (6 / 25) - BALL_RADIUS := by
      unfold BALL_RADIUS GRAVITY
      norm_num
    rw [Ball.update_no_wall ⟨730, 920⟩ ⟨crashH, -720⟩ (6 / 25) h1 h2 h3]
    congr 1
    · rw [Vec2.eq_coords_iff]
      constructor
      · rfl
      · show (920 : ℝ) + (-720 + GRAVITY * (6 / 25)) * (6 / 25) = 19976 / 25
        unfold GRAVITY
        norm_num
    · rw [Vec2.eq_coords_iff]
      constructor
      · rfl
      · show (-720 : ℝ) + GRAVITY * (6 / 25) = -504
        unfold GRAVITY
        norm_num
  have hfl1 : Game.init.left_flipper.collide bb1 = some (bb1, false) := by
    apply flipper_collide_far_x
    show FLIPPER_LENGTH + (BALL_RADIUS + FLIPPER_WIDTH / 2) < |730 + crashH * (6 / 25) - 270|
    rw [abs_of_nonneg (by nlinarith)]
    unfold FLIPPER_LENGTH BALL_RADIUS FLIPPER_WIDTH
    nlinarith
  have hfr1 : Game.init.right_flipper.collide bb1 = some (bb1, false) := by
    apply flipper_collide_far_x
    show FLIPPER_LENGTH + (BALL_RADIUS + FLIPPER_WIDTH / 2) < |730 + crashH * (6 / 25) - 530|
    rw [abs_of_nonneg (by nlinarith)]
    unfold FLIPPER_LENGTH BALL_RADIUS FLIPPER_WIDTH
    nlinarith
  have hpass1 : flipperCollidePass [Game.init.left_flipper, Game.init.right_flipper] bb1
      Game.init.score = some (bb1, Game.init.score) := by
    simp only [flipperCollidePass, hfl1, hfr1]
  have hbump1 : collideBumpers Game.init.bumpers bb1 Game.init.score =
      some (bb1, Game.init.score) := by
    apply collideBumpers_far_below
    intro bp hbp
    have hbp2 : bp ∈
        ([⟨⟨220, 260⟩, 150⟩, ⟨⟨320, 260⟩, 150⟩, ⟨⟨480, 260⟩, 150⟩, ⟨⟨580, 260⟩, 150⟩,
          ⟨⟨220, 360⟩, 150⟩, ⟨⟨320, 360⟩, 150⟩, ⟨⟨480, 360⟩, 150⟩, ⟨⟨580, 360⟩, 150⟩,
          ⟨⟨220, 460⟩, 150⟩, ⟨⟨320, 460⟩, 150⟩, ⟨⟨480, 460⟩, 150⟩, ⟨⟨580, 460⟩, 150⟩,
          ⟨⟨400, 560⟩, 250⟩] : List Bumper) := hbp
    fin_cases hbp2 <;> norm_num [hbb1, BUMPER_RADIUS, BALL_RADIUS]
  have hg1hc : Game.handle_collisions (Game.mk Game.init.left_flipper Game.init.right_flipper
      Game.init.bumpers (some bb1) Game.init.score) = some G1 := by
    simp only [Game.handle_collisions, hpass1, hbump1]
  have hdrain1 : ¬(bb1.position.y - BALL_RADIUS > HEIGHT + 40) := by
    show ¬((19976 / 25 : ℝ) - BALL_RADIUS > HEIGHT + 40)
    unfold BALL_RADIUS HEIGHT
    norm_num
  have htick1 : ({ Game.init with ball := some bb0 } : Game).update false false (6 / 25) =
      some G1 := by
    apply Game.update_rest_some ({ Game.init with ball := some bb0 } : Game) bb0 (6 / 25) G1 bb1
      rfl (hlfix _) (hrfix _) ?_ rfl hdrain1
    rw [hball1]
    exact hg1hc
  -- tick 2: free flight into the exact segment point
  have hball2 : bb1.update (33 / 50) = bb2 := by
    rw [hbb1, hbb2]
    have h1 : 20 ≤ (730 + crashH * (6 / 25)) + crashH * (33 / 50) - BALL_RADIUS := by
      unfold BALL_RADIUS
      nlinarith
    have h2 : (730 + crashH * (6 / 25)) + crashH * (33 / 50) + BALL_RADIUS ≤ WIDTH - 20 := by
      unfold BALL_RADIUS WIDTH
      nlinarith
    have h3 : 20 ≤ 19976 / 25 + (-504 + GRAVITY * (33 / 50)) * (33 / 50) - BALL_RADIUS := by
      unfold BALL_RADIUS GRAVITY
      norm_num
    rw [Ball.update_no_wall ⟨730 + crashH * (6 / 25), 19976 / 25⟩ ⟨crashH, -504⟩ (33 / 50)
      h1 h2 h3]
    congr 1
    · rw [Vec2.eq_coords_iff]
      constructor
      · rfl
      · show (19976 / 25 : ℝ) + (-504 + GRAVITY * (33 / 50)) * (33 / 50) = 21461 / 25
        unfold GRAVITY
        norm_num
    · rw [Vec2.eq_coords_iff]
      constructor
      · rfl
      · show (-504 : ℝ) + GRAVITY * (33 / 50) = 90
        unfold GRAVITY
        norm_num
  have hfl2 : Game.init.left_flipper.collide bb2 = some (bb2, false) := by
    apply flipper_collide_far_x
    show FLIPPER_LENGTH + (BALL_RADIUS + FLIPPER_WIDTH / 2) <
      |730 + crashH * (6 / 25) + crashH * (33 / 50) - 270|
    rw [abs_of_nonneg (by nlinarith)]
    unfold FLIPPER_LENGTH BALL_RADIUS FLIPPER_WIDTH
    nlinarith
  have hfr2 : Game.init.right_flipper.collide bb2 = none := by
    apply flipper_collide_on_segment _ _ crashU (by linarith [crashU_bounds.1]) ?_ ?_
    · show crashU ≤ (110 : ℝ)
      linarith [crashU_bounds.2]
    · show bb2.position = (⟨530, 820⟩ : Vec2) + crashU •
        ⟨Real.cos FLIPPER_REST_ANGLE, -Real.sin FLIPPER_REST_ANGLE⟩
      have hREST : FLIPPER_REST_ANGLE = -(22 * Real.pi / 180) := by
        unfold FLIPPER_REST_ANGLE
        ring
      have hcos : Real.cos FLIPPER_REST_ANGLE = Real.cos (22 * Real.pi / 180) := by
        rw [hREST, Real.cos_neg]
      have hsin : -Real.sin FLIPPER_REST_ANGLE = Real.sin (22 * Real.pi / 180) := by
        rw [hREST, Real.sin_neg, neg_neg]
      rw [Vec2.eq_coords_iff]
      constructor
      · show 730 + crashH * (6 / 25) + crashH * (33 / 50) =
          530 + crashU * Real.cos FLIPPER_REST_ANGLE
        rw [hcos]
        have h9 : crashH * (9 / 10) = crashU * Real.cos (22 * Real.pi / 180) - 200 := by
          unfold crashH
          rw [div_mul_cancel₀ _ (show (9 / 10 : ℝ) ≠ 0 by norm_num)]
        linarith [h9]
      · show (21461 / 25 : ℝ) = 820 + crashU * -Real.sin FLIPPER_REST_ANGLE
        have husin : crashU * -Real.sin FLIPPER_REST_ANGLE = 961 / 25 := by
          rw [show crashU * -Real.sin FLIPPER_REST_ANGLE =
            crashU * Real.sin (22 * Real.pi / 180) by rw [hsin]]
          unfold crashU
          rw [div_mul_cancel₀ _ (ne_of_gt sinA_pos)]
        rw [husin]
        norm_num
  have hpass2 : flipperCollidePass [Game.init.left_flipper, Game.init.right_flipper] bb2
      Game.init.score = none := by
    simp only [flipperCollidePass, hfl2, hfr2]
  have hg2hc : Game.handle_collisions (Game.mk Game.init.left_flipper Game.init.right_flipper
      Game.init.bumpers (some bb2) Game.init.score) = none := by
    simp only [Game.handle_collisions, hpass2]
  have htick2 : G1.update false false (33 / 50) = none := by
    apply Game.update_rest_none G1 bb1 (33 / 50) rfl (hlfix _) (hrfix _)
    rw [hball2]
    exact hg2hc
  refine ⟨⟨by linarith, by linarith⟩, G1, ?_, htick2⟩
  have hlaunch : Game.init.launch_ball crashH = { Game.init with ball := some bb0 } := by
    have hball : (⟨⟨WIDTH - 70, HEIGHT - 80⟩, ⟨crashH, -LAUNCH_FORCE⟩⟩ : Ball) = bb0 := by
      rw [hbb0, Ball.eq_fields_iff]
      constructor
      · rw [Vec2.eq_coords_iff]
        constructor
        · show WIDTH - 70 = (730 : ℝ)
          unfold WIDTH
          norm_num
        · show HEIGHT - 80 = (920 : ℝ)
          unfold HEIGHT
          norm_num
      · rw [Vec2.eq_coords_iff]
        constructor
        · rfl
        · show -LAUNCH_FORCE = (-720 : ℝ)
          unfold LAUNCH_FORCE
          norm_num
    unfold Game.launch_ball
    rw [hball]
  rw [hlaunch]
  exact htick1

end Pinball

end
